import Mathlib

/-!
Verification development for the VR-monkey exploratory UI-testing core
(`state_graph.py`, `core_types.py`, `mouse_controller.py`,
`simple_state_explorer.py`, `config.py`).

Modelling conventions:
* Python floats are modelled as exact rationals (`ℚ`); pixel coordinates and
  deltas are integers (`ℤ`); counters are `ℕ`.
* Python strings are Lean `String`s; `s.lower().strip()` is modelled
  character-wise over `String.data`.
* A state fingerprint (`State._generate_state_id`, a JSON dump of the
  `(content, bbox)` pairs of the buttons in order) is modelled by the list of
  `(content, bbox)` pairs itself; the JSON encoding is injective on those, so
  equality of fingerprints coincides.
* Stateful code is modelled by explicit state passing; the environment
  (screenshots, pointer detection, the credential-prompt classifier, the
  UI-element detector, actuator success) is an oracle stream of observation
  records, one record consumed per loop pass.
* `math.sqrt` in the centre-distance sort key is replaced by the squared
  distance; `sqrt` is strictly monotone, so the sort order is unchanged.
-/

namespace VRMonkey

/-! ### Similarity engine (`StateGraph.levenshtein_distance` / `text_similarity` / `check_same_states`) -/

/-- One inner row-building loop of the single-row dynamic-programming edit
distance: given `c1` (current char of `s1`), the remaining chars of `s2`, the
window of the previous row and the last entry of the current row, produce the
rest of the current row.  Mirrors the inner `for j, c2 in enumerate(s2)` loop of
`StateGraph.levenshtein_distance`. -/
def levStep (c1 : Char) : List Char → List ℕ → ℕ → List ℕ
  | c2 :: s2rest, p0 :: p1 :: prest, cur =>
      let insertions := p1 + 1
      let deletions := cur + 1
      let substitutions := p0 + (if c1 = c2 then 0 else 1)
      let v := min insertions (min deletions substitutions)
      v :: levStep c1 s2rest (p1 :: prest) v
  | _, _, _ => []

/-- Core of `StateGraph.levenshtein_distance` after the length-swap: assumes
`s1` is the longer string.  `previous_row` starts as `range(len(s2)+1)`; each
outer step builds `current_row = [i+1] ++ inner(...)` (note
`previous_row[0] = i`, so the new head is `previous_row[0] + 1`); the result is
the last entry of the final row. -/
def levCore (s1 s2 : List Char) : ℕ :=
  if s2 = [] then s1.length
  else
    let init := List.range (s2.length + 1)
    let finalRow := s1.foldl (fun prev c1 =>
      let h := prev.headD 0 + 1
      h :: levStep c1 s2 prev h) init
    finalRow.getLastD 0

/-- `StateGraph.levenshtein_distance(s1, s2)`: swaps so the first argument is
the longer one, then runs the single-row DP. -/
def levenshteinDistance (s1 s2 : List Char) : ℕ :=
  if s1.length < s2.length then levCore s2 s1 else levCore s1 s2

/-- Python `s.replace(a, b)` for a single-character pattern: every occurrence
of `a` is replaced by `b`. -/
def charReplace (a b : Char) (l : List Char) : List Char :=
  l.map (fun c => if c = a then b else c)

/-- Python `s.replace(pat, rep)` for a multi-character pattern: leftmost,
non-overlapping replacement of every occurrence. -/
def listReplace (pat rep : List Char) : List Char → List Char
  | [] => []
  | c :: rest =>
      if h : pat ≠ [] ∧ pat.isPrefixOf (c :: rest) then
        rep ++ listReplace pat rep ((c :: rest).drop pat.length)
      else
        c :: listReplace pat rep rest
  termination_by l => l.length
  decreasing_by
    · have hl : pat.length ≠ 0 := fun h0 => h.1 (List.eq_nil_of_length_eq_zero h0)
      simp only [List.length_drop, List.length_cons]
      omega
    · simp

/-- Python `c.isspace()`-style whitespace test used by `str.strip()`. -/
def isSpaceChar (c : Char) : Bool :=
  c = ' ' ∨ c = '\t' ∨ c = '\n' ∨ c = '\r'

/-- Python `s.lower().strip()`: lowercase every character, then drop leading
and trailing whitespace. -/
def pyNormalize (s : String) : List Char :=
  (((s.data.map Char.toLower).dropWhile isSpaceChar).reverse.dropWhile
    isSpaceChar).reverse

/-- The OCR-confusable single-character substitution table of
`StateGraph.text_similarity`, in Python dict insertion order. -/
def ocrConfusions : List (Char × Char) :=
  [('0', 'o'), ('1', 'i'), ('2', 'z'), ('5', 's'), ('8', 'b'), ('9', 'g'),
   ('l', 'i'), ('i', 'l'), ('o', '0'), ('z', '2'), ('s', '5'), ('b', '8'),
   ('g', '9')]

/-- The multi-character OCR merge patterns of `StateGraph.text_similarity`. -/
def commonPatterns : List (List Char × List Char) :=
  [(['r', 'n'], ['m']), (['c', 'l'], ['d']), (['v', 'v'], ['w']),
   (['n', 'n'], ['m']), (['i', 'i'], ['n']), (['i', 'l'], ['n']),
   (['l', 'i'], ['n'])]

/-- The semantically equivalent UI-action-word groups of
`StateGraph.text_similarity`. -/
def semanticGroups : List (List (List Char)) :=
  [[['b','a','c','k'], ['r','e','t','u','r','n'],
    ['p','r','e','v','i','o','u','s'], ['g','o',' ','b','a','c','k']],
   [['n','e','x','t'], ['c','o','n','t','i','n','u','e'],
    ['p','r','o','c','e','e','d'], ['f','o','r','w','a','r','d']],
   [['c','a','n','c','e','l'], ['c','l','o','s','e'], ['e','x','i','t'],
    ['q','u','i','t']],
   [['o','k'], ['c','o','n','f','i','r','m'], ['a','c','c','e','p','t'],
    ['y','e','s']],
   [['s','e','t','t','i','n','g','s'], ['o','p','t','i','o','n','s'],
    ['p','r','e','f','e','r','e','n','c','e','s'],
    ['c','o','n','f','i','g','u','r','a','t','i','o','n']],
   [['h','e','l','p'], ['s','u','p','p','o','r','t'],
    ['a','s','s','i','s','t','a','n','c','e'], ['g','u','i','d','e']]]

/-- The Levenshtein similarity `1.0 - distance/max_len if max_len > 0 else
0.0` used throughout `text_similarity`. -/
def simFrom (d m : ℕ) : ℚ :=
  if 0 < m then 1 - (d : ℚ) / (m : ℚ) else 0

/-- The `for char, replacement in ocr_confusions.items()` loop of
`text_similarity`: try every single-character OCR substitution on both
(normalized) strings and keep the best similarity seen, starting from the
base edit similarity. -/
def ocrBest (t1 t2 : List Char) (maxLen : ℕ) (base : ℚ) : ℚ :=
  ocrConfusions.foldl (fun best p =>
    let s1alt := charReplace p.1 p.2 t1
    let s2alt := charReplace p.1 p.2 t2
    if s1alt ≠ t1 ∨ s2alt ≠ t2 then
      max best (simFrom (levenshteinDistance s1alt s2alt) maxLen)
    else best) base

/-- The `for pattern, replacement in common_patterns` loop of
`text_similarity`. -/
def patternBest (t1 t2 : List Char) (maxLen : ℕ) (base : ℚ) : ℚ :=
  commonPatterns.foldl (fun best p =>
    let s1alt := listReplace p.1 p.2 t1
    let s2alt := listReplace p.1 p.2 t2
    if s1alt ≠ t1 ∨ s2alt ≠ t2 then
      max best (simFrom (levenshteinDistance s1alt s2alt) maxLen)
    else best) base

/-- `StateGraph.text_similarity(s1, s2)`: 0 on an empty input, 1 on equal
normalized strings, otherwise best of the base edit similarity, the
OCR-substituted similarities and the pattern-substituted similarities, blended
with the semantic-group score when both words fall in one group. -/
def textSimilarity (s1 s2 : String) : ℚ :=
  if s1 = "" ∨ s2 = "" then 0
  else
    let t1 := pyNormalize s1
    let t2 := pyNormalize s2
    if t1 = t2 then 1
    else
      let maxLen := max t1.length t2.length
      let levenshteinSim := simFrom (levenshteinDistance t1 t2) maxLen
      let bestSim := patternBest t1 t2 maxLen (ocrBest t1 t2 maxLen levenshteinSim)
      let semanticSim : ℚ :=
        if semanticGroups.any (fun g => t1 ∈ g ∧ t2 ∈ g) then 1 else 0
      if semanticSim > 4/5 then (7/10) * semanticSim + (3/10) * bestSim
      else bestSim

/-! ### Core data types (`core_types.py`) -/

/-- Normalized bounding box of a UI element (`Button.bbox`, which is the
4-element list `[x_min, y_min, x_max, y_max]` in the source). -/
structure BBox where
  xMin : ℚ
  yMin : ℚ
  xMax : ℚ
  yMax : ℚ
deriving DecidableEq, Repr

/-- `core_types.Button`: an interactive UI element. -/
structure ButtonE where
  id : String
  content : String
  bbox : BBox
  interactivity : Bool
  src : String
deriving DecidableEq, Repr

/-- A state fingerprint (`State._generate_state_id`): the `(content, bbox)`
pairs of the buttons in stored order (the JSON dump is injective on these). -/
abbrev StateId := List (String × BBox)

/-- `State._generate_state_id`. -/
def genStateId (buttons : List ButtonE) : StateId :=
  buttons.map (fun b => (b.content, b.bbox))

/-- `core_types.State`: the stored buttons snapshot, the mutable queue of
not-yet-explored buttons, and the fingerprint. -/
structure StateE where
  buttons : List ButtonE
  unexplored : List ButtonE
  stateId : StateId
deriving DecidableEq, Repr

instance : Inhabited StateE := ⟨⟨[], [], []⟩⟩

/-- Squared distance from a button centre to the screen centre
(`distance_to_center` in `State.__init__`, without the final `** 0.5`;
`sqrt` is strictly monotone so the induced order is identical). -/
def distSqCenter (w h : ℚ) (b : ButtonE) : ℚ :=
  let btnCenterX := (b.bbox.xMin + b.bbox.xMax) / 2 * w
  let btnCenterY := (b.bbox.yMin + b.bbox.yMax) / 2 * h
  (btnCenterX - w / 2) ^ 2 + (btnCenterY - h / 2) ^ 2

/-- Python `sorted(buttons, key=distance_to_center)` (a stable sort by
ascending distance to the screen centre), as a stable insertion sort. -/
def sortByDist (w h : ℚ) (l : List ButtonE) : List ButtonE :=
  List.insertionSort (fun a b => distSqCenter w h a ≤ distSqCenter w h b) l

/-- `State.__init__`: stores the buttons list as given, sorts a copy by
ascending distance to the screen centre into the unexplored queue, and derives
the fingerprint from the stored (unsorted) buttons list. -/
def mkState (buttons : List ButtonE) (w h : ℚ) : StateE :=
  { buttons := buttons
    unexplored := sortByDist w h buttons
    stateId := genStateId buttons }

/-- `State.get_next_unexplored_button`: pop the head of the unexplored queue,
if any. -/
def getNextUnexploredButton (s : StateE) : Option ButtonE × StateE :=
  match s.unexplored with
  | [] => (none, s)
  | b :: rest => (some b, { s with unexplored := rest })

/-- Fuelled worker for `drainPops`. -/
def drainPopsGo : ℕ → StateE → List ButtonE
  | 0, _ => []
  | fuel + 1, s =>
      match getNextUnexploredButton s with
      | (none, _) => []
      | (some b, s2) => b :: drainPopsGo fuel s2

/-- Repeatedly call `get_next_unexplored_button` until it yields `None`,
collecting the popped buttons in order. -/
def drainPops (s : StateE) : List ButtonE :=
  drainPopsGo s.unexplored.length s

/-! ### State graph (`state_graph.py`) -/

/-- `core_types.StateGraphEdge` (the wall-clock `last_traversed` timestamp is
elided: no claim depends on it). -/
structure EdgeE where
  fromId : StateId
  toId : StateId
  button : ButtonE
  traversalCount : ℕ
deriving DecidableEq, Repr

/-- `StateGraph.check_same_states(state1, state2, tolerance=0.7)`. -/
def checkSameStates (state1 state2 : StateE) (tolerance : ℚ := 7/10) : Bool :=
  if state1.buttons.length = 0 ∧ state2.buttons.length = 0 then true
  else if state1.buttons.length = 0 ∨ state2.buttons.length = 0 then false
  else
    let contents1 := state1.buttons.map (·.content)
    let contents2 := state2.buttons.map (·.content)
    let sizeRatio : ℚ :=
      (min contents1.length contents2.length : ℚ) /
      (max contents1.length contents2.length : ℚ)
    if sizeRatio < 7/10 then false
    else
      let similarityScores := contents1.map (fun c1 =>
        contents2.foldl (fun m c2 => max m (textSimilarity c1 c2)) 0)
      let avgSimilarity : ℚ :=
        if similarityScores ≠ [] then
          similarityScores.sum / (similarityScores.length : ℚ)
        else 0
      decide (avgSimilarity ≥ tolerance)

/-- `state_graph.StateGraph`: nodes, edges keyed by `(from_id, to_id)` in
insertion order, the dead-button set, and the home state. -/
structure GraphE where
  nodes : List StateE
  edges : List ((StateId × StateId) × EdgeE)
  deadButtons : List (StateId × String)
  homeState : Option StateE
deriving Repr

/-- The empty graph (`StateGraph.__init__`). -/
def emptyGraph : GraphE := ⟨[], [], [], none⟩

/-- `StateGraph.has_state`. -/
def hasState (g : GraphE) (s : StateE) : Bool :=
  g.nodes.any (fun existing => checkSameStates s existing)

/-- `StateGraph.add_state`: returns whether the state was new, and the updated
graph. -/
def addState (g : GraphE) (s : StateE) : Bool × GraphE :=
  if hasState g s then (false, g)
  else (true, { g with nodes := g.nodes ++ [s] })

/-- Linear scan for the first node equivalent to `s`, returning its index. -/
def findSimilarIdxAux (s : StateE) : List StateE → ℕ → Option ℕ
  | [], _ => none
  | existing :: rest, i =>
      if checkSameStates s existing then some i
      else findSimilarIdxAux s rest (i + 1)

/-- `StateGraph.find_similar_state`, returning the index of the first
equivalent node. -/
def findSimilarIdx (g : GraphE) (s : StateE) : Option ℕ :=
  findSimilarIdxAux s g.nodes 0

/-- `StateGraph.add_edge`: create the edge with one recorded traversal, or
increment the traversal counter of the existing edge with the same
`(from_id, to_id)` key. -/
def addEdge (g : GraphE) (fromId toId : StateId) (b : ButtonE) : GraphE :=
  if (g.edges.lookup (fromId, toId)).isSome then
    { g with edges := g.edges.map (fun e =>
        if e.1 = (fromId, toId) then
          (e.1, { e.2 with traversalCount := e.2.traversalCount + 1 })
        else e) }
  else
    { g with edges :=
        g.edges ++ [((fromId, toId), ⟨fromId, toId, b, 1⟩)] }

/-- `StateGraph.add_dead_button` (set insertion). -/
def addDeadButton (g : GraphE) (stateId : StateId) (buttonId : String) :
    GraphE :=
  if (stateId, buttonId) ∈ g.deadButtons then g
  else { g with deadButtons := (stateId, buttonId) :: g.deadButtons }

/-- `StateGraph.is_dead_button`. -/
def isDeadButton (g : GraphE) (stateId : StateId) (buttonId : String) : Bool :=
  (stateId, buttonId) ∈ g.deadButtons

/-- `StateGraph.set_home_state`. -/
def setHomeState (g : GraphE) (s : StateE) : GraphE :=
  { g with homeState := some s }

/-- `StateGraph.is_home_state`. -/
def isHomeState (g : GraphE) (s : StateE) : Bool :=
  match g.homeState with
  | none => false
  | some h => checkSameStates s h

/-- `StateGraph.get_unexplored_states`: states that still have an unexplored
button that is not dead. -/
def getUnexploredStates (g : GraphE) : List StateE :=
  g.nodes.filter (fun st =>
    st.unexplored.any (fun b => ¬ isDeadButton g st.stateId b.id))

/-- The dictionary returned by `StateGraph.get_stats`. -/
structure GraphStats where
  totalStates : ℕ
  totalEdges : ℕ
  totalButtons : ℕ
  unexploredButtons : ℕ
  deadButtons : ℕ
  explorationProgress : ℚ
deriving DecidableEq, Repr

/-- `StateGraph.get_stats`. -/
def getStats (g : GraphE) : GraphStats :=
  let totalButtons := (g.nodes.map (fun st => st.buttons.length)).sum
  let totalUnexplored := (g.nodes.map (fun st => st.unexplored.length)).sum
  { totalStates := g.nodes.length
    totalEdges := g.edges.length
    totalButtons := totalButtons
    unexploredButtons := totalUnexplored
    deadButtons := g.deadButtons.length
    explorationProgress :=
      if 0 < totalButtons then
        ((totalButtons : ℚ) - (totalUnexplored : ℚ)) / (totalButtons : ℚ) * 100
      else 0 }

/-- The mutating operations of `StateGraph` (every method of the class that
writes to the graph: `add_state`, `add_edge`, `add_dead_button`,
`set_home_state`; all other methods are read-only). -/
inductive GraphOp
  | addStateOp (s : StateE)
  | addEdgeOp (fromId toId : StateId) (b : ButtonE)
  | addDeadOp (stateId : StateId) (buttonId : String)
  | setHomeOp (s : StateE)

/-- Apply one mutating graph operation. -/
def applyGraphOp : GraphOp → GraphE → GraphE
  | .addStateOp s, g => (addState g s).2
  | .addEdgeOp f t b, g => addEdge g f t b
  | .addDeadOp sid bid, g => addDeadButton g sid bid
  | .setHomeOp s, g => setHomeState g s

/-! ### Pointer controller (`mouse_controller.py`, `move_to_target`)

The closed feedback loop of `MouseController.move_to_target` is embedded as a
step function on an explicit loop state, driven by an oracle stream of
observation records (one per loop pass): each record bundles the answers the
environment gives to the calls the pass can make (actuator move success, the
two screenshot attempts, the two pointer detections, the credential-prompt
classifier, the recovery probes).  The antagonistic `_bounce_leg` dither and
the post-convergence gain-learning update (`_update_ratio_from_movement`) are
straight-line code outside the loop and are elided; `self.mouse_ratio` is
constant for the duration of one call and is part of the configuration. -/

/-- Configuration of one `move_to_target` call: the `Config` fields it reads,
the target, and the (per-call constant) mouse ratio.  Defaults are the ones in
`config.py` / the `tolerance=10` signature default. -/
structure MouseCfg where
  targetX : ℤ
  targetY : ℤ
  tolerance : ℤ := 10
  maxAttempts : ℕ := 10
  maxLost : ℕ := 5
  maxNoMovement : ℕ := 5
  ratioX : ℚ := 3/5
  ratioY : ℚ := 91/100
deriving Repr

/-- The loop-carried state of `move_to_target`: current pointer position,
remaining deltas, per-axis step magnitude and direction, the running commanded
totals, and the three counters (`attempts`, `lost_pointer_count`, and the
controller-level `consecutive_no_movement`). -/
structure LoopSt where
  xNow : ℤ
  yNow : ℤ
  deltaX : ℤ
  deltaY : ℤ
  stepX : ℚ
  stepY : ℚ
  dirX : ℤ
  dirY : ℤ
  totalX : ℚ
  totalY : ℚ
  attempts : ℕ
  lost : ℕ
  noMove : ℕ
deriving DecidableEq, Repr

/-- One observation record: everything the environment can answer during a
single pass of the movement loop (and, with the same shape, during the
pre-loop pointer acquisition).  `pointer`/`pointer2` are the results of
`find_pointer` on the first and the post-recovery screenshot, `password` /
`password2` the classifier results on those frames, `recoverOk` the result of
`_recover_pointer`, and the `3`-suffixed fields serve the stuck-pointer
recovery attempt. -/
structure MObs where
  moveOk : Bool := true
  shotOk : Bool := true
  pointer : Option (ℤ × ℤ) := none
  password : Bool := false
  recoverOk : Bool := false
  shotOk2 : Bool := false
  pointer2 : Option (ℤ × ℤ) := none
  password2 : Bool := false
  recoverOk3 : Bool := false
  shotOk3 : Bool := false
  pointer3 : Option (ℤ × ℤ) := none
deriving Repr

/-- The distinct return paths of `move_to_target` (standing for its
`error_message` strings). -/
inductive MoveErr
  | initShot | initRecover | initShot2 | initStillLost
  | moveFail | shotFail | passwordDetected | lostTooMany | stuck | maxAttempts
deriving DecidableEq, Repr

/-- `core_types.PointerMoveResult` (the `accuracy` percentage is kept as an
optional rational). -/
structure MoveRes where
  success : Bool
  finalX : Option ℤ := none
  finalY : Option ℤ := none
  accuracy : Option ℚ := none
  attempts : Option ℕ := none
  passwordDetected : Bool := false
  err : Option MoveErr := none
deriving DecidableEq, Repr

/-- Actuator-visible actions of the controller: a `move_pixel` command batch
with the commanded (pre-ratio) step, or a `_recover_pointer` probe sequence. -/
inductive MAct
  | movePixel (x y : ℚ)
  | recoverPtr
deriving DecidableEq, Repr

/-- Outcome of one pass of the movement loop: a return, the
unpacking-`None` crash (`x_now, y_now = pointer_pos` with `pointer_pos is
None`, reachable when recovery succeeds but the follow-up screenshot fails),
or another pass. -/
inductive MOutcome
  | done (r : MoveRes)
  | crash
  | again (s : LoopSt)
deriving Repr

/-- `1 if delta > 0 else -1` (direction assignment in `move_to_target`). -/
def signOf (d : ℤ) : ℤ := if d > 0 then 1 else -1

/-- `abs(delta) / ratio if ratio > 0 else abs(delta)`: the
remaining-distance-over-gain step. -/
def stepFromDelta (ratio : ℚ) (d : ℤ) : ℚ :=
  if 0 < ratio then (|d| : ℚ) / ratio else (|d| : ℚ)

/-- The adaptive per-axis step-size adjustment of `move_to_target` (lines
carrying the overshoot/good-progress/slow-progress cases), returning the new
step magnitude and direction.  `dNew` is the freshly recomputed delta, `dPrev`
the delta before this pass. -/
def adjustAxis (tolQ ratio : ℚ) (dNew dPrev : ℤ) (step : ℚ) (dir : ℤ) :
    ℚ × ℤ :=
  if (dNew : ℚ) * (dir : ℚ) < 0 then
    (max tolQ (step / 2), -dir)
  else if (|dNew| : ℚ) < (|dPrev| : ℚ) * (1/2) then
    (max step (stepFromDelta ratio dNew), signOf dNew)
  else if (|dNew| : ℚ) > (|dPrev| : ℚ) * (9/10) then
    (min (step * (3/2)) (stepFromDelta ratio dNew), signOf dNew)
  else
    (stepFromDelta ratio dNew, signOf dNew)

/-- The tail of a loop pass once a pointer position `(xN, yN)` is in hand:
recompute the deltas, adjust both axes, bump the attempt counter and either
abort on `max_attempts` or continue. -/
def finishPass (cfg : MouseCfg) (s : LoopSt) (xN yN : ℤ) (lost2 noMove2 : ℕ)
    (totX totY : ℚ) : MOutcome :=
  let dX := cfg.targetX - xN
  let dY := cfg.targetY - yN
  let ax := adjustAxis (cfg.tolerance : ℚ) cfg.ratioX dX s.deltaX s.stepX s.dirX
  let ay := adjustAxis (cfg.tolerance : ℚ) cfg.ratioY dY s.deltaY s.stepY s.dirY
  let att := s.attempts + 1
  if att > cfg.maxAttempts then
    .done { success := false, finalX := some xN, finalY := some yN,
            attempts := some att, err := some .maxAttempts }
  else
    .again { xNow := xN, yNow := yN, deltaX := dX, deltaY := dY,
             stepX := ax.1, stepY := ay.1, dirX := ax.2, dirY := ay.2,
             totalX := totX, totalY := totY, attempts := att, lost := lost2,
             noMove := noMove2 }

/-- The dead-end (pointer-not-moving) detection between the position update
and the step adjustment: bump `consecutive_no_movement` when the observed
displacement is at most 5 px, attempt a recovery after two such passes, abort
as stuck at the `max_no_movement_attempts` ceiling. -/
def afterPointer (cfg : MouseCfg) (o : MObs) (s : LoopSt) (lost2 : ℕ)
    (p : ℤ × ℤ) (totX totY : ℚ) : MOutcome × List MAct :=
  let distSqMoved := (p.1 - s.xNow) ^ 2 + (p.2 - s.yNow) ^ 2
  if distSqMoved ≤ 25 then
    let nm := s.noMove + 1
    let recActs : List MAct := if nm ≥ 2 then [MAct.recoverPtr] else []
    let recPos : Option (ℤ × ℤ) :=
      if nm ≥ 2 ∧ o.recoverOk3 ∧ o.shotOk3 then o.pointer3 else none
    match recPos with
    | some q =>
        if (0 : ℕ) ≥ cfg.maxNoMovement then
          (.done { success := false, finalX := some q.1, finalY := some q.2,
                   attempts := some s.attempts, err := some .stuck }, recActs)
        else
          (finishPass cfg s q.1 q.2 lost2 0 totX totY, recActs)
    | none =>
        if nm ≥ cfg.maxNoMovement then
          (.done { success := false, finalX := some p.1, finalY := some p.2,
                   attempts := some s.attempts, err := some .stuck }, recActs)
        else
          (finishPass cfg s p.1 p.2 lost2 nm totX totY, recActs)
  else
    (finishPass cfg s p.1 p.2 lost2 0 totX totY, [])

/-- One pass of the `while abs(delta_x) > tolerance or abs(delta_y) >
tolerance` loop of `move_to_target`, together with the actuator actions it
issues.  Follows the source line by line: issue the scaled relative move,
re-observe, classify a lost pointer (credential prompt → blocked; recovery;
giving the `lost_pointer_count` ceiling), detect a stuck pointer, adjust the
per-axis steps, and bump the attempt counter. -/
def stepBody (cfg : MouseCfg) (o : MObs) (s : LoopSt) :
    MOutcome × List MAct :=
  let xStep := s.stepX * (s.dirX : ℚ)
  let yStep := s.stepY * (s.dirY : ℚ)
  let totX := s.totalX + xStep
  let totY := s.totalY + yStep
  let moveAct := MAct.movePixel xStep yStep
  if ¬ o.moveOk then
    (.done { success := false, finalX := some s.xNow, finalY := some s.yNow,
             attempts := some s.attempts, err := some .moveFail }, [moveAct])
  else if ¬ o.shotOk then
    (.done { success := false, finalX := some s.xNow, finalY := some s.yNow,
             attempts := some s.attempts, err := some .shotFail }, [moveAct])
  else
    match o.pointer with
    | none =>
        if o.password then
          (.done { success := false, attempts := some s.attempts,
                   passwordDetected := true, err := some .passwordDetected },
           [moveAct])
        else
          let lost2 := s.lost + 1
          if lost2 ≥ cfg.maxLost then
            (.done { success := false, attempts := some s.attempts,
                     err := some .lostTooMany }, [moveAct])
          else if ¬ o.recoverOk then
            (.again { s with lost := lost2, totalX := totX, totalY := totY },
             [moveAct, .recoverPtr])
          else if ¬ o.shotOk2 then
            (.crash, [moveAct, .recoverPtr])
          else
            match o.pointer2 with
            | none =>
                if o.password2 then
                  (.done { success := false, attempts := some s.attempts,
                           passwordDetected := true,
                           err := some .passwordDetected },
                   [moveAct, .recoverPtr])
                else
                  (.again { s with lost := lost2, totalX := totX,
                                   totalY := totY },
                   [moveAct, .recoverPtr])
            | some p =>
                ((afterPointer cfg o s lost2 p totX totY).1,
                 moveAct :: .recoverPtr ::
                   (afterPointer cfg o s lost2 p totX totY).2)
    | some p =>
        ((afterPointer cfg o s 0 p totX totY).1,
         moveAct :: (afterPointer cfg o s 0 p totX totY).2)

/-- Terminal value of the movement loop: a `PointerMoveResult`, or the
`TypeError` crash. -/
inductive MoveEnd
  | result (r : MoveRes)
  | crashed
deriving Repr

/-- The loop guard `abs(delta_x) > tolerance or abs(delta_y) > tolerance`. -/
def loopCond (cfg : MouseCfg) (s : LoopSt) : Bool :=
  decide (|s.deltaX| > cfg.tolerance) || decide (|s.deltaY| > cfg.tolerance)

/-- The success result built after convergence (accuracy relative to a
`screenW × screenH` screen of 3024 × 1964, as in `config.py`). -/
def successRes (cfg : MouseCfg) (s : LoopSt) : MoveRes :=
  let accuracyX : ℚ := 1 - (|s.xNow - cfg.targetX| : ℚ) / 3024
  let accuracyY : ℚ := 1 - (|s.yNow - cfg.targetY| : ℚ) / 1964
  { success := true, finalX := some s.xNow, finalY := some s.yNow,
    accuracy := some ((accuracyX + accuracyY) / 2 * 100),
    attempts := some s.attempts }

/-- The movement loop with explicit fuel: pass `i` consumes observation
`env i`.  `none` means the fuel ran out (never happens with enough fuel, see
the termination theorem). -/
def runLoop (cfg : MouseCfg) (env : ℕ → MObs) :
    ℕ → ℕ → LoopSt → Option MoveEnd × List MAct
  | 0, _, _ => (none, [])
  | fuel + 1, i, s =>
    if loopCond cfg s then
      match (stepBody cfg (env i) s).1 with
      | .done r => (some (.result r), (stepBody cfg (env i) s).2)
      | .crash => (some .crashed, (stepBody cfg (env i) s).2)
      | .again s2 =>
          ((runLoop cfg env fuel (i + 1) s2).1,
           (stepBody cfg (env i) s).2 ++ (runLoop cfg env fuel (i + 1) s2).2)
    else (some (.result (successRes cfg s)), [])

/-- Fuel bound for the movement loop, decreasing at every pass. -/
def loopMeasure (cfg : MouseCfg) (s : LoopSt) : ℕ :=
  (cfg.maxAttempts + 1 - s.attempts) * (cfg.maxLost + 1) +
    (cfg.maxLost - s.lost)

/-- The loop state entering the movement loop, given the initial pointer
position (`move_step = abs(delta)/ratio`, `direction = sign(delta)`); the
controller-level `consecutive_no_movement` counter persists across calls and
enters as `noMove0`. -/
def initLoopSt (cfg : MouseCfg) (x0 y0 : ℤ) (noMove0 : ℕ) : LoopSt :=
  let dX := cfg.targetX - x0
  let dY := cfg.targetY - y0
  { xNow := x0, yNow := y0, deltaX := dX, deltaY := dY,
    stepX := stepFromDelta cfg.ratioX dX, stepY := stepFromDelta cfg.ratioY dY,
    dirX := signOf dX, dirY := signOf dY,
    totalX := 0, totalY := 0, attempts := 0, lost := 0, noMove := noMove0 }

/-- `MouseController.move_to_target`: the pre-loop pointer acquisition
(initial screenshot, credential-prompt check, one recovery round) followed by
the feedback loop, run with the fuel bound of the termination theorem.
Observation 0 serves the pre-loop phase; pass `i` of the loop consumes
observation `i + 1`. -/
def moveToTarget (cfg : MouseCfg) (env : ℕ → MObs) (noMove0 : ℕ) :
    Option MoveEnd × List MAct :=
  let o := env 0
  let startLoop := fun (p : ℤ × ℤ) (pre : List MAct) =>
    let s0 := initLoopSt cfg p.1 p.2 noMove0
    ((runLoop cfg env (loopMeasure cfg s0 + 1) 1 s0).1,
     pre ++ (runLoop cfg env (loopMeasure cfg s0 + 1) 1 s0).2)
  if ¬ o.shotOk then
    (some (.result { success := false, err := some .initShot }), [])
  else
    match o.pointer with
    | some p => startLoop p []
    | none =>
        if o.password then
          (some (.result { success := false, passwordDetected := true,
                           err := some .passwordDetected }), [])
        else if ¬ o.recoverOk then
          (some (.result { success := false, err := some .initRecover }),
           [.recoverPtr])
        else if ¬ o.shotOk2 then
          (some (.result { success := false, err := some .initShot2 }),
           [.recoverPtr])
        else
          match o.pointer2 with
          | some p => startLoop p [.recoverPtr]
          | none =>
              if o.password2 then
                (some (.result { success := false, passwordDetected := true,
                                 err := some .passwordDetected }),
                 [.recoverPtr])
              else
                (some (.result { success := false,
                                 err := some .initStillLost }),
                 [.recoverPtr])

/-! ### Exploration engine (`simple_state_explorer.py`)

`StateExplorer` is embedded with explicit state passing over the graph and the
explorer-level counters.  Each iteration of the `explore_state` while loop
consumes one observation record (the timeout answers, the outcome of the
`move_to_target`-and-click attempt abstracted to its explorer-visible fields,
and the detector result of the follow-up `check_current_state`); a standalone
`check_current_state` call consumes a record of its own.  Observable events
(clicks, blacklisting, restart requests, the final statistics and snapshot)
are collected in an action trace.  Logging, image archival and the
metrics counters are elided; the unused `home_return_count` field (written,
never read) is elided as well. -/

/-- A raw detector element (`omniparser_client.get_ui_elements` output). -/
structure RawElem where
  content : String
  bbox : BBox
  interactivity : Bool
  src : String
deriving DecidableEq, Repr

/-- One explorer observation record. -/
structure EObs where
  timeoutLoop : Bool := false
  moveOk : Bool := true
  movePassword : Bool := false
  noMoveMax : Bool := false
  timeoutCheck : Bool := false
  ui : Option (List RawElem) := none
deriving Repr

/-- The explorer configuration fields read by the embedded code
(`config.py` defaults). -/
structure ExplorerCfg where
  screenW : ℚ := 3024
  screenH : ℚ := 1964
  maxClicksWithoutNewState : ℕ := 15
  enableHomeDetection : Bool := true
  hasAppManager : Bool := true
deriving Repr

/-- The mutable explorer attributes that the claims touch. -/
structure ExpSt where
  graph : GraphE
  currentState : Option ℕ
  clicksSinceNewState : ℕ
  lastTrigger : Option (StateId × String)
  idx : ℕ

/-- Observable explorer events. -/
inductive EAct
  | click (sid : StateId) (bid : String)
  | addDead (sid : StateId) (bid : String)
  | restartApp
  | statsEmit (st : GraphStats)
  | exportSnapshot
  | finalizeMetrics
deriving DecidableEq, Repr

/-- Node of the graph at an index (the Python code holds object references
into `graph.nodes`). -/
def nodeAt (g : GraphE) (i : ℕ) : StateE :=
  g.nodes.getD i default

/-- Fingerprint of the node at an index. -/
def stateIdAt (g : GraphE) (i : ℕ) : StateId :=
  (nodeAt g i).stateId

/-- `StateExplorer._find_button_by_id`. -/
def findButtonById (s : StateE) (buttonId : String) : Option ButtonE :=
  s.buttons.find? (fun b => b.id = buttonId)

/-- The button-construction loop of `check_current_state`: keep the
interactive elements, assigning `id = str(len(buttons))` as they are kept. -/
def buttonsFromUi (raw : List RawElem) : List ButtonE :=
  raw.foldl (fun acc e =>
    if e.interactivity then
      acc ++ [{ id := toString acc.length, content := e.content,
                bbox := e.bbox, interactivity := e.interactivity,
                src := e.src }]
    else acc) []

/-- The edge-recording block of `check_current_state` when the classification
hit an existing node (`if self.current_state and self.current_state !=
similar_state and clicked_button_id is not None`). -/
def recordEdgeKnown (g : GraphE) (cs : Option ℕ) (clickedId : Option String)
    (j : ℕ) : GraphE :=
  match cs, clickedId with
  | some ci, some bid =>
      if ci ≠ j then
        match findButtonById (nodeAt g ci) bid with
        | some b => addEdge g (stateIdAt g ci) (stateIdAt g j) b
        | none => g
      else g
  | _, _ => g

/-- The edge-recording block of `check_current_state` when a brand-new state
was added (`if self.current_state and clicked_button_id is not None`). -/
def recordEdgeNew (g : GraphE) (cs : Option ℕ) (clickedId : Option String)
    (toId : StateId) : GraphE :=
  match cs, clickedId with
  | some ci, some bid =>
      match findButtonById (nodeAt g ci) bid with
      | some b => addEdge g (stateIdAt g ci) toId b
      | none => g
  | _, _ => g

/-- `StateExplorer.check_current_state(clicked_button_id)`: raise on timeout
(modelled by `Except.error`), classify the detector output against the graph
(first equivalent node wins), otherwise add the new state; record the
transition edge from the previous `current_state` when a clicked button id was
given.  Returns `(is_known_state, index of the resulting node)`; the detector
failing gives `(False, None)`. -/
def checkCurrentState (cfg : ExplorerCfg) (env : ℕ → EObs)
    (clickedId : Option String) (st : ExpSt) :
    Except Unit (Bool × Option ℕ) × ExpSt :=
  let o := env st.idx
  let st := { st with idx := st.idx + 1 }
  if o.timeoutCheck then (.error (), st)
  else
    match o.ui with
    | none => (.ok (false, none), st)
    | some raw =>
        let buttons := buttonsFromUi raw
        let newState := mkState buttons cfg.screenW cfg.screenH
        match findSimilarIdx st.graph newState with
        | some j =>
            (.ok (true, some j),
             { st with
                 graph := recordEdgeKnown st.graph st.currentState clickedId j,
                 currentState := some j })
        | none =>
            let g1 := (addState st.graph newState).2
            let newIdx := g1.nodes.length - 1
            (.ok (false, some newIdx),
             { st with
                 graph := recordEdgeNew g1 st.currentState clickedId
                   newState.stateId,
                 currentState := some newIdx })

/-- `StateExplorer._restart_app_and_resume`: blacklist the remembered
last-trigger pair first, end the exploration (emitting the final stats log)
when no state has a non-dead unexplored button left, otherwise request the app
restart and reset the counters and the last trigger. -/
def restartAndResume (cfg : ExplorerCfg) (st : ExpSt) : ExpSt × List EAct :=
  let g1 :=
    match st.lastTrigger with
    | some tr => addDeadButton st.graph tr.1 tr.2
    | none => st.graph
  let acts1 : List EAct :=
    match st.lastTrigger with
    | some tr => [EAct.addDead tr.1 tr.2]
    | none => []
  if (getUnexploredStates g1).isEmpty then
    ({ st with graph := g1 }, acts1 ++ [EAct.statsEmit (getStats g1)])
  else
    let acts2 : List EAct := if cfg.hasAppManager then [EAct.restartApp] else []
    ({ st with graph := g1, clicksSinceNewState := 0, lastTrigger := none },
     acts1 ++ acts2)

/-- `StateExplorer._handle_home_return(new_state)`: nothing when the observed
state is not the home state; otherwise blacklist the remembered last trigger,
restart-and-resume (which blacklists it again), and reset the counter.
Returns whether the home return was handled (the caller then leaves the
frame). -/
def handleHomeReturn (cfg : ExplorerCfg) (st : ExpSt) (ns : StateE) :
    Bool × ExpSt × List EAct :=
  if ¬ isHomeState st.graph ns then (false, st, [])
  else
    match st.lastTrigger with
    | some tr =>
        let rr := restartAndResume cfg
          { st with graph := addDeadButton st.graph tr.1 tr.2 }
        (true, { rr.1 with clicksSinceNewState := 0 },
         EAct.addDead tr.1 tr.2 :: rr.2)
    | none =>
        let rr := restartAndResume cfg st
        (true, { rr.1 with clicksSinceNewState := 0 }, rr.2)

/-- `StateExplorer._click_button(button)` for the state at index `si`: a
successful `move_to_target` is followed by the physical click; a failure whose
result has `password_detected` blacklists `(current_state, button)` and
restarts the app (a missing `current_state` raises inside the method and is
swallowed by its own `except`, returning `False`). -/
def clickButton (cfg : ExplorerCfg) (st : ExpSt) (si : ℕ) (b : ButtonE)
    (o : EObs) : Bool × ExpSt × List EAct :=
  if o.moveOk then
    (true, st, [EAct.click (stateIdAt st.graph si) b.id])
  else if o.movePassword then
    match st.currentState with
    | none => (false, st, [])
    | some ci =>
        let deadSid := stateIdAt st.graph ci
        let rr := restartAndResume cfg
          { st with graph := addDeadButton st.graph deadSid b.id }
        (false, rr.1, EAct.addDead deadSid b.id :: rr.2)
  else (false, st, [])

/-- Pop the next unexplored button of the node at index `si`
(`state.get_next_unexplored_button()`, mutating the node in place). -/
def popButton (st : ExpSt) (si : ℕ) : Option ButtonE × ExpSt :=
  let gn := getNextUnexploredButton (nodeAt st.graph si)
  match gn.1 with
  | none => (none, st)
  | some b =>
      (some b,
       { st with
           graph := { st.graph with nodes := st.graph.nodes.set si gn.2 } })

/-- The tail of an `explore_state` loop iteration once `check_current_state`
has returned (`cc1` its classification result, `st3` the explorer state after
it, `acts2` the actions of the click attempt): the known-state bookkeeping
(home-return handling, the wasted-click ceiling) or the depth-first recursion
into a brand-new state.  The recursive re-entries of `explore_state` are
abstracted as `k`. -/
def exploreAfterClassify (cfg : ExplorerCfg)
    (k : ℕ → ExpSt → ExpSt × List EAct) (si : ℕ) (b : ButtonE)
    (acts2 : List EAct) (cc1 : Except Unit (Bool × Option ℕ)) (st3 : ExpSt) :
    ExpSt × List EAct :=
  match cc1 with
  | .error _ => (st3, acts2)
  | .ok r =>
      match r.2 with
      | none =>
          let r4 := k si st3
          (r4.1, acts2 ++ r4.2)
      | some j =>
          if r.1 then
            let st4 := { st3 with
              clicksSinceNewState := st3.clicksSinceNewState + 1 }
            let hs :=
              if cfg.enableHomeDetection then
                handleHomeReturn cfg st4 (nodeAt st4.graph j)
              else (false, st4, [])
            if hs.1 then (hs.2.1, acts2 ++ hs.2.2)
            else if hs.2.1.clicksSinceNewState ≥
                cfg.maxClicksWithoutNewState then
              let r6 := restartAndResume cfg hs.2.1
              (r6.1, acts2 ++ hs.2.2 ++ r6.2)
            else
              let r6 := k si hs.2.1
              (r6.1, acts2 ++ hs.2.2 ++ r6.2)
          else
            let st4 := { st3 with
              clicksSinceNewState := 0,
              lastTrigger := some (stateIdAt st3.graph si, b.id) }
            let r5 := k j st4
            let r6 := k si r5.1
            (r6.1, acts2 ++ r5.2 ++ r6.2)

/-- The part of an `explore_state` loop iteration after a button has been
popped: the dead-button check, the click attempt with its failure handling,
and the reclassification. -/
def exploreAfterPop (cfg : ExplorerCfg) (env : ℕ → EObs)
    (k : ℕ → ExpSt → ExpSt × List EAct) (si : ℕ) (b : ButtonE) (o : EObs)
    (st1 : ExpSt) : ExpSt × List EAct :=
  if isDeadButton st1.graph (stateIdAt st1.graph si) b.id then k si st1
  else
    let cb := clickButton cfg st1 si b o
    if ¬ cb.1 then
      if o.noMoveMax then
        let deadSid := stateIdAt cb.2.1.graph si
        let r4 := k si
          { cb.2.1 with graph := addDeadButton cb.2.1.graph deadSid b.id }
        (r4.1, cb.2.2 ++ [EAct.addDead deadSid b.id] ++ r4.2)
      else
        let r4 := k si cb.2.1
        (r4.1, cb.2.2 ++ r4.2)
    else
      let cc := checkCurrentState cfg env (some b.id) cb.2.1
      exploreAfterClassify cfg k si b cb.2.2 cc.1 cc.2

/-- One iteration of the `while state.has_unexplored_buttons()` loop of
`explore_state`, with the recursive re-entry (both the loop continuation and
the depth-first recursion into a newly found state) abstracted as `k`. -/
def exploreStep (cfg : ExplorerCfg) (env : ℕ → EObs)
    (k : ℕ → ExpSt → ExpSt × List EAct) (si : ℕ) (st : ExpSt) :
    ExpSt × List EAct :=
  if (nodeAt st.graph si).unexplored.isEmpty then (st, [])
  else
    let o := env st.idx
    let stb := { st with idx := st.idx + 1 }
    if o.timeoutLoop then (stb, [])
    else
      let pb := popButton stb si
      match pb.1 with
      | none => (pb.2, [])
      | some b => exploreAfterPop cfg env k si b o pb.2

/-- `StateExplorer.explore_state` on the node at index `si`, with fuel
bounding the loop iterations and the recursion depth.  One observation record
is consumed per loop iteration (plus one inside the nested
`check_current_state`). -/
def exploreState (cfg : ExplorerCfg) (env : ℕ → EObs) :
    ℕ → ℕ → ExpSt → ExpSt × List EAct
  | 0, _, st => (st, [])
  | fuel + 1, si, st =>
      exploreStep cfg env (exploreState cfg env fuel) si st

/-- The unconditional tail of `explore_all_states`
(`StateExplorer._finalize_exploration`): log the final statistics, export the
state-graph snapshot, finalize the metrics. -/
def finalizeActs (g : GraphE) : List EAct :=
  [EAct.statsEmit (getStats g), EAct.exportSnapshot, EAct.finalizeMetrics]

/-- `StateExplorer.explore_all_states`: classify the initial state, refuse to
explore when it is still the home screen (raised and caught), run the
recursive exploration, and in all cases (normal return, `TimeoutError`, any
other exception) run `_finalize_exploration`. -/
def exploreAllStates (cfg : ExplorerCfg) (env : ℕ → EObs) (fuel : ℕ)
    (st : ExpSt) : ExpSt × List EAct :=
  let cc := checkCurrentState cfg env none st
  let st1 := cc.2
  let body :=
    match cc.1 with
    | .error _ => (st1, ([] : List EAct))
    | .ok r =>
        match r.2 with
        | none => (st1, [])
        | some j =>
            if isHomeState st1.graph (nodeAt st1.graph j) then (st1, [])
            else exploreState cfg env fuel j st1
  (body.1, body.2 ++ finalizeActs body.1.graph)

/-! ### Lemmas on the similarity engine -/

theorem simFrom_le_one (d m : ℕ) : simFrom d m ≤ 1 := by
  unfold simFrom
  split
  · have hd : (0 : ℚ) ≤ (d : ℚ) / (m : ℚ) := by positivity
    linarith
  · norm_num

theorem foldl_step_le_one {α : Type} (g : ℚ → α → ℚ)
    (hg : ∀ b p, b ≤ 1 → g b p ≤ 1) :
    ∀ (l : List α) (b : ℚ), b ≤ 1 → l.foldl g b ≤ 1 := by
  intro l
  induction l with
  | nil => intro b hb; simpa using hb
  | cons p t ih => intro b hb; exact ih _ (hg _ _ hb)

theorem le_foldl_max {α : Type} (f : α → ℚ) :
    ∀ (l : List α) (b : ℚ), b ≤ l.foldl (fun m c => max m (f c)) b := by
  intro l
  induction l with
  | nil => intro b; simp
  | cons p t ih =>
      intro b
      calc b ≤ max b (f p) := le_max_left _ _
        _ ≤ _ := ih _

theorem mem_le_foldl_max {α : Type} (f : α → ℚ) (c : α) :
    ∀ (l : List α) (b : ℚ), c ∈ l →
      f c ≤ l.foldl (fun m x => max m (f x)) b := by
  intro l
  induction l with
  | nil => intro b hc; simp at hc
  | cons p t ih =>
      intro b hc
      rcases List.mem_cons.mp hc with h | h
      · subst h
        calc f c ≤ max b (f c) := le_max_right _ _
          _ ≤ _ := le_foldl_max f t _
      · exact ih _ h

theorem ocrBest_le_one (t1 t2 : List Char) (maxLen : ℕ) (base : ℚ)
    (hb : base ≤ 1) : ocrBest t1 t2 maxLen base ≤ 1 := by
  unfold ocrBest
  refine foldl_step_le_one _ ?_ _ _ hb
  intro b p hble
  dsimp only
  split
  · exact max_le hble (simFrom_le_one _ _)
  · exact hble

theorem patternBest_le_one (t1 t2 : List Char) (maxLen : ℕ) (base : ℚ)
    (hb : base ≤ 1) : patternBest t1 t2 maxLen base ≤ 1 := by
  unfold patternBest
  refine foldl_step_le_one _ ?_ _ _ hb
  intro b p hble
  dsimp only
  split
  · exact max_le hble (simFrom_le_one _ _)
  · exact hble

/-- `text_similarity` never exceeds 1. -/
theorem textSimilarity_le_one (s1 s2 : String) : textSimilarity s1 s2 ≤ 1 := by
  unfold textSimilarity
  split
  · norm_num
  · dsimp only
    split
    · norm_num
    · have hbest : patternBest (pyNormalize s1) (pyNormalize s2)
          (max (pyNormalize s1).length (pyNormalize s2).length)
          (ocrBest (pyNormalize s1) (pyNormalize s2)
            (max (pyNormalize s1).length (pyNormalize s2).length)
            (simFrom (levenshteinDistance (pyNormalize s1) (pyNormalize s2))
              (max (pyNormalize s1).length (pyNormalize s2).length))) ≤ 1 :=
        patternBest_le_one _ _ _ _ (ocrBest_le_one _ _ _ _ (simFrom_le_one _ _))
      split_ifs <;> linarith

/-- `text_similarity` is 1 on two equal nonempty strings (the post-normalize
equality branch fires). -/
theorem textSimilarity_self (s : String) (h : s ≠ "") :
    textSimilarity s s = 1 := by
  unfold textSimilarity
  simp [h]

theorem sum_of_all_ones : ∀ (l : List ℚ), (∀ x ∈ l, x = 1) →
    l.sum = (l.length : ℚ) := by
  intro l
  induction l with
  | nil => intro _; simp
  | cons a t ih =>
      intro h
      have ha := h a (by simp)
      have ht := ih (fun x hx => h x (by simp [hx]))
      simp [ha, ht]
      ring

/-- `add_state` on a graph that already fuzzy-contains the state is a no-op
returning `False`. -/
theorem addState_of_hasState (g : GraphE) (s : StateE)
    (h : hasState g s = true) : addState g s = (false, g) := by
  unfold addState
  simp [h]

/-- `check_same_states` holds between two states with literally identical
button lists, provided every button content is a nonempty string. -/
theorem checkSameStates_refl (s1 s2 : StateE) (hb : s2.buttons = s1.buttons)
    (hc : ∀ b ∈ s1.buttons, b.content ≠ "") :
    checkSameStates s1 s2 = true := by
  unfold checkSameStates
  rcases eq_or_ne s1.buttons ([] : List ButtonE) with hnil | hnil
  · simp [hnil, hb]
  · have hlen : s1.buttons.length ≠ 0 := by
      simpa [List.length_eq_zero] using hnil
    rw [hb]
    simp only [hlen, and_self, if_false, or_self, List.length_map]
    have hratio : ¬ ((min s1.buttons.length s1.buttons.length : ℚ) /
        (max s1.buttons.length s1.buttons.length : ℚ) < 7/10) := by
      simp only [min_self, max_self]
      rw [div_self (by exact_mod_cast hlen)]
      norm_num
    simp only [min_self, max_self] at hratio ⊢
    rw [if_neg hratio]
    have hscores : ∀ x ∈ (s1.buttons.map (·.content)).map (fun c1 =>
        ((s1.buttons.map (·.content)).foldl
          (fun m c2 => max m (textSimilarity c1 c2)) 0)), x = 1 := by
      intro x hx
      rcases List.mem_map.mp hx with ⟨c1, hc1, rfl⟩
      rcases List.mem_map.mp hc1 with ⟨b, hbmem, rfl⟩
      have hne := hc b hbmem
      have hup : (s1.buttons.map (·.content)).foldl
          (fun m c2 => max m (textSimilarity b.content c2)) 0 ≤ 1 := by
        refine foldl_step_le_one _ ?_ _ _ (by norm_num)
        intro m c2 hm
        exact max_le hm (textSimilarity_le_one _ _)
      have hlow : textSimilarity b.content b.content ≤
          (s1.buttons.map (·.content)).foldl
            (fun m c2 => max m (textSimilarity b.content c2)) 0 :=
        mem_le_foldl_max _ _ _ _ (List.mem_map.mpr ⟨b, hbmem, rfl⟩)
      rw [textSimilarity_self _ hne] at hlow
      exact le_antisymm hup hlow
    have hnonempty : (s1.buttons.map (·.content)).map (fun c1 =>
        ((s1.buttons.map (·.content)).foldl
          (fun m c2 => max m (textSimilarity c1 c2)) 0)) ≠ [] := by
      simp [hnil]
    rw [if_pos hnonempty]
    rw [sum_of_all_ones _ hscores]
    simp only [List.length_map]
    rw [div_self (by exact_mod_cast hlen : (s1.buttons.length : ℚ) ≠ 0)]
    norm_num

/-! ### Concrete fixtures used by counterexamples and witnesses -/

/-- A button whose detected text content is the empty string (exactly what
`check_current_state` builds when the detector reports an element with no
`content` key). -/
def blankButton : ButtonE :=
  { id := "0", content := "", bbox := ⟨0, 0, 1, 1⟩, interactivity := true,
    src := "box" }

/-- A state holding a single empty-content button. -/
def blankState : StateE := mkState [blankButton] 3024 1964

/-- A button with the nonempty content `ok`. -/
def okButton : ButtonE :=
  { id := "0", content := "ok", bbox := ⟨0, 0, 1, 1⟩, interactivity := true,
    src := "box" }

/-- A state holding the single `ok` button. -/
def okState : StateE := mkState [okButton] 3024 1964

/-- A state with no buttons at all. -/
def noButtonState : StateE := mkState [] 3024 1964

/-! ### Claim C1 -/

/-- C1 (amended): `check_same_states` with the default tolerance 0.7 returns
true for two empty-element states, false when exactly one side is empty, and
is reflexive on identical element lists provided every element content is a
nonempty string (self-similarity of an empty-content element is 0, so
fully-blank states do not compare equal to themselves). -/
theorem claim1_statesEqual :
    (∀ s1 s2 : StateE, s1.buttons = [] → s2.buttons = [] →
        checkSameStates s1 s2 = true) ∧
    (∀ s1 s2 : StateE,
        (s1.buttons = [] ∧ s2.buttons ≠ []) ∨
        (s1.buttons ≠ [] ∧ s2.buttons = []) →
        checkSameStates s1 s2 = false) ∧
    (∀ s1 s2 : StateE, s2.buttons = s1.buttons →
        (∀ b ∈ s1.buttons, b.content ≠ "") →
        checkSameStates s1 s2 = true) := by
  refine ⟨?_, ?_, ?_⟩
  · intro s1 s2 h1 h2
    unfold checkSameStates
    simp [h1, h2]
  · intro s1 s2 h
    unfold checkSameStates
    rcases h with ⟨h1, h2⟩ | ⟨h1, h2⟩
    · have h2l : s2.buttons.length ≠ 0 := by
        simpa [List.length_eq_zero] using h2
      simp [h1, h2l]
    · have h1l : s1.buttons.length ≠ 0 := by
        simpa [List.length_eq_zero] using h1
      simp [h1l, h2]
  · exact checkSameStates_refl

/-- Self-comparison of the fully-blank one-button state fails:
`text_similarity` is 0 on empty contents, so the average best-score is 0. -/
theorem checkSameStates_blank_self :
    checkSameStates blankState blankState = false := by
  norm_num [checkSameStates, blankState, blankButton, mkState, textSimilarity]

/-- C1 counterexample: a state holding one button whose OCR text is empty is
not equal to itself under `check_same_states` (the claim asserts reflexivity
for every identical element list). -/
theorem claim1_statesEqual_cex :
    checkSameStates blankState blankState = false :=
  checkSameStates_blank_self

/-- Witness for C1 at concrete inputs. -/
theorem claim1_statesEqual_witness :
    checkSameStates noButtonState noButtonState = true ∧
    checkSameStates noButtonState okState = false ∧
    checkSameStates okState okState = true := by
  refine ⟨?_, ?_, ?_⟩
  · exact claim1_statesEqual.1 noButtonState noButtonState (by decide) (by decide)
  · exact claim1_statesEqual.2.1 noButtonState okState
      (Or.inl ⟨by decide, by decide⟩)
  · exact claim1_statesEqual.2.2 okState okState rfl (by decide)

/-! ### Claim C2 -/

/-- C2 (amended): `add_state` is idempotent for states whose element contents
are all nonempty (or with no elements): once `add_state(s)` has returned
`True`, adding any state with the identical element list returns `False` and
leaves the node list unchanged.  (For a state containing an empty-content
element the fuzzy self-match fails and the same frame is added twice, see the
counterexample.) -/
theorem claim2_addState_idempotent (g : GraphE) (s s2 : StateE)
    (hadd : (addState g s).1 = true)
    (hb : s2.buttons = s.buttons)
    (hc : s.buttons = [] ∨ ∀ b ∈ s.buttons, b.content ≠ "") :
    addState (addState g s).2 s2 = (false, (addState g s).2) := by
  have hsame : checkSameStates s2 s = true := by
    rcases hc with hnil | hne
    · unfold checkSameStates
      simp [hnil, hb]
    · exact checkSameStates_refl s2 s (by rw [hb])
        (fun b hbm => hne b (by rwa [hb] at hbm))
  have hnew : hasState g s = false := by
    unfold addState at hadd
    by_cases h : hasState g s
    · simp [h] at hadd
    · simpa using h
  have hg1 : (addState g s).2 = { g with nodes := g.nodes ++ [s] } := by
    unfold addState
    simp [hnew]
  have hhas : hasState (addState g s).2 s2 = true := by
    rw [hg1]
    unfold hasState
    simp only [List.any_append, Bool.or_eq_true, List.any_cons, List.any_nil]
    right
    simp [hsame]
  exact addState_of_hasState _ _ hhas

/-- C2 counterexample: the same fully-blank classified frame fed twice
produces two graph entries (`add_state` returns `True` both times). -/
theorem claim2_addState_cex :
    (addState emptyGraph blankState).1 = true ∧
    (addState (addState emptyGraph blankState).2 blankState).1 = true ∧
    (addState (addState emptyGraph blankState).2 blankState).2.nodes.length
      = 2 := by
  have hcs := checkSameStates_blank_self
  have h0 : addState emptyGraph blankState =
      (true, { emptyGraph with nodes := [blankState] }) := by
    simp [addState, hasState, emptyGraph]
  rw [h0]
  have h1 : hasState { emptyGraph with nodes := [blankState] } blankState
      = false := by
    simp [hasState, hcs]
  have h2 : addState { emptyGraph with nodes := [blankState] } blankState =
      (true, { emptyGraph with nodes := [blankState, blankState] }) := by
    unfold addState
    simp [h1]
  rw [h2]
  exact ⟨rfl, rfl, rfl⟩

/-- Witness for C2 at concrete inputs. -/
theorem claim2_addState_witness :
    addState (addState emptyGraph okState).2 okState =
      (false, (addState emptyGraph okState).2) :=
  claim2_addState_idempotent emptyGraph okState okState (by decide) rfl
    (Or.inr (by decide))

/-! ### Claim C9 -/

/-- Order of buttons by squared distance of bounding-box centre to the screen
centre (the key of Python `sorted`, with the monotone square root elided). -/
abbrev distLE (w h : ℚ) (a b : ButtonE) : Prop :=
  distSqCenter w h a ≤ distSqCenter w h b

theorem drainPopsGo_eq : ∀ (fuel : ℕ) (s : StateE),
    s.unexplored.length ≤ fuel → drainPopsGo fuel s = s.unexplored := by
  intro fuel
  induction fuel with
  | zero =>
      intro s hs
      have : s.unexplored = [] := List.eq_nil_of_length_eq_zero (by omega)
      simp [drainPopsGo, this]
  | succ n ih =>
      intro s hs
      cases hu : s.unexplored with
      | nil => simp [drainPopsGo, getNextUnexploredButton, hu]
      | cons b rest =>
          have hlen : rest.length ≤ n := by
            rw [hu] at hs; simpa using hs
          simp only [drainPopsGo, getNextUnexploredButton, hu]
          exact congrArg (b :: ·) (ih { s with unexplored := rest } hlen)

/-- `get_next_unexplored_button` pops exactly the head of the queue:
repeatedly popping yields the queue itself, in order, each entry once. -/
theorem drainPops_eq_unexplored (s : StateE) : drainPops s = s.unexplored :=
  drainPopsGo_eq _ s le_rfl

/-- C9 (amended): the unexplored queue of a freshly constructed `State` is
sorted by ascending centre distance and is a permutation of the detected
buttons, and successive `get_next_unexplored_button` calls pop exactly that
queue front to back (each entry at most once); the stored `buttons` snapshot
and the fingerprint derived from it, however, keep the detector order — they
are not re-sorted. -/
theorem claim9_stateOrder (btns : List ButtonE) (w h : ℚ) :
    (mkState btns w h).buttons = btns ∧
    (mkState btns w h).stateId = genStateId btns ∧
    List.Pairwise (distLE w h) (mkState btns w h).unexplored ∧
    drainPops (mkState btns w h) = (mkState btns w h).unexplored ∧
    ((mkState btns w h).unexplored).Perm btns := by
  haveI : IsTotal ButtonE (fun a b => distSqCenter w h a ≤ distSqCenter w h b) :=
    ⟨fun a b => le_total _ _⟩
  haveI : IsTrans ButtonE (fun a b => distSqCenter w h a ≤ distSqCenter w h b) :=
    ⟨fun _ _ _ => le_trans⟩
  refine ⟨rfl, rfl, ?_, drainPops_eq_unexplored _, ?_⟩
  · exact List.sorted_insertionSort _ btns
  · exact List.perm_insertionSort _ btns

/-- A button whose bounding box sits in the top-left corner, far from the
screen centre. -/
def farButton : ButtonE :=
  { id := "0", content := "far", bbox := ⟨0, 0, 1/10, 1/10⟩,
    interactivity := true, src := "box" }

/-- A button whose bounding box is centred on the screen centre. -/
def nearButton : ButtonE :=
  { id := "1", content := "near", bbox := ⟨45/100, 45/100, 55/100, 55/100⟩,
    interactivity := true, src := "box" }

/-- C9 counterexample: for the detector output `[farButton, nearButton]` the
stored `buttons` snapshot (from which the fingerprint is derived) keeps the
detector order and is not sorted by ascending distance to the screen centre —
only the unexplored queue is. -/
theorem claim9_stateOrder_cex :
    ¬ List.Pairwise (distLE 3024 1964)
        (mkState [farButton, nearButton] 3024 1964).buttons ∧
    (mkState [farButton, nearButton] 3024 1964).unexplored =
      [nearButton, farButton] := by
  constructor
  · intro hp
    have h2 := List.pairwise_cons.mp hp
    have := h2.1 nearButton (by simp)
    unfold distLE distSqCenter farButton nearButton at this
    norm_num at this
  · show sortByDist 3024 1964 [farButton, nearButton] = [nearButton, farButton]
    unfold sortByDist
    simp only [List.insertionSort, List.orderedInsert]
    rw [if_neg]
    unfold distSqCenter farButton nearButton
    norm_num

/-! ### Lemmas on the pointer-controller loop -/

/-- On a sign flip (`delta_x * x_direction < 0`) the step adjustment halves
the step, floored at the tolerance, and reverses direction. -/
theorem adjustAxis_flip (tolQ ratio : ℚ) (dNew dPrev : ℤ) (step : ℚ)
    (dir : ℤ) (h : dNew * dir < 0) :
    adjustAxis tolQ ratio dNew dPrev step dir = (max tolQ (step / 2), -dir) := by
  unfold adjustAxis
  rw [if_pos (by exact_mod_cast h)]

theorem finishPass_again (cfg : MouseCfg) (s : LoopSt) (xN yN : ℤ)
    (lost2 noMove2 : ℕ) (totX totY : ℚ) (s2 : LoopSt)
    (h : finishPass cfg s xN yN lost2 noMove2 totX totY = .again s2) :
    s2.attempts = s.attempts + 1 ∧ s2.attempts ≤ cfg.maxAttempts ∧
    s2.lost = lost2 ∧ s2.xNow = xN ∧ s2.yNow = yN ∧
    s2.deltaX = cfg.targetX - xN ∧ s2.deltaY = cfg.targetY - yN ∧
    s2.stepX = (adjustAxis (cfg.tolerance : ℚ) cfg.ratioX (cfg.targetX - xN)
      s.deltaX s.stepX s.dirX).1 ∧
    s2.stepY = (adjustAxis (cfg.tolerance : ℚ) cfg.ratioY (cfg.targetY - yN)
      s.deltaY s.stepY s.dirY).1 := by
  unfold finishPass at h
  dsimp only at h
  split at h
  · simp at h
  · rename_i hatt
    injection h with h2
    subst h2
    refine ⟨rfl, ?_, rfl, rfl, rfl, rfl, rfl, rfl, rfl⟩
    show s.attempts + 1 ≤ cfg.maxAttempts
    omega

theorem afterPointer_again (cfg : MouseCfg) (o : MObs) (s : LoopSt)
    (lost2 : ℕ) (p : ℤ × ℤ) (totX totY : ℚ) (s2 : LoopSt)
    (h : (afterPointer cfg o s lost2 p totX totY).1 = .again s2) :
    s2.attempts = s.attempts + 1 ∧ s2.attempts ≤ cfg.maxAttempts ∧
    s2.lost = lost2 ∧
    s2.deltaX = cfg.targetX - s2.xNow ∧ s2.deltaY = cfg.targetY - s2.yNow ∧
    s2.stepX = (adjustAxis (cfg.tolerance : ℚ) cfg.ratioX s2.deltaX
      s.deltaX s.stepX s.dirX).1 ∧
    s2.stepY = (adjustAxis (cfg.tolerance : ℚ) cfg.ratioY s2.deltaY
      s.deltaY s.stepY s.dirY).1 := by
  unfold afterPointer at h
  dsimp only at h
  split at h
  · split at h
    · split at h
      · simp at h
      · obtain ⟨h1, h2, h3, hx, hy, hdx, hdy, hsx, hsy⟩ :=
          finishPass_again _ _ _ _ _ _ _ _ _ h
        exact ⟨h1, h2, h3, by rw [hdx, hx], by rw [hdy, hy],
               by rw [hsx, hdx], by rw [hsy, hdy]⟩
    · split at h
      · simp at h
      · obtain ⟨h1, h2, h3, hx, hy, hdx, hdy, hsx, hsy⟩ :=
          finishPass_again _ _ _ _ _ _ _ _ _ h
        exact ⟨h1, h2, h3, by rw [hdx, hx], by rw [hdy, hy],
               by rw [hsx, hdx], by rw [hsy, hdy]⟩
  · obtain ⟨h1, h2, h3, hx, hy, hdx, hdy, hsx, hsy⟩ :=
      finishPass_again _ _ _ _ _ _ _ _ _ h
    exact ⟨h1, h2, h3, by rw [hdx, hx], by rw [hdy, hy],
           by rw [hsx, hdx], by rw [hsy, hdy]⟩

/-- Characterization of a continuing loop pass: either it is a full pass
(attempt counter bumped and bounded, deltas recomputed from the new position,
steps produced by the per-axis adjustment), or it is a lost-pointer `continue`
(everything but the totals unchanged, `lost_pointer_count` bumped below its
ceiling). -/
theorem stepBody_again (cfg : MouseCfg) (o : MObs) (s s2 : LoopSt)
    (h : (stepBody cfg o s).1 = .again s2) :
    (s2.attempts = s.attempts + 1 ∧ s2.attempts ≤ cfg.maxAttempts ∧
     (s2.lost = 0 ∨ (s2.lost = s.lost + 1 ∧ s.lost + 1 < cfg.maxLost)) ∧
     s2.deltaX = cfg.targetX - s2.xNow ∧ s2.deltaY = cfg.targetY - s2.yNow ∧
     s2.stepX = (adjustAxis (cfg.tolerance : ℚ) cfg.ratioX s2.deltaX
       s.deltaX s.stepX s.dirX).1 ∧
     s2.stepY = (adjustAxis (cfg.tolerance : ℚ) cfg.ratioY s2.deltaY
       s.deltaY s.stepY s.dirY).1) ∨
    (s2.deltaX = s.deltaX ∧ s2.deltaY = s.deltaY ∧ s2.stepX = s.stepX ∧
     s2.stepY = s.stepY ∧ s2.attempts = s.attempts ∧
     s2.lost = s.lost + 1 ∧ s.lost + 1 < cfg.maxLost) := by
  unfold stepBody at h
  dsimp only at h
  split at h
  · simp at h
  · split at h
    · simp at h
    · split at h
      · -- pointer not found
        split at h
        · simp at h
        · split at h
          · simp at h
          · rename_i hlost
            split at h
            · -- recovery failed: continue
              injection h with h2
              subst h2
              right
              exact ⟨rfl, rfl, rfl, rfl, rfl, rfl, by omega⟩
            · split at h
              · simp at h
              · split at h
                · -- pointer still lost after recovery
                  split at h
                  · simp at h
                  · injection h with h2
                    subst h2
                    right
                    exact ⟨rfl, rfl, rfl, rfl, rfl, rfl, by omega⟩
                · -- pointer recovered: full pass, lost2 = lost + 1
                  rename_i hlost2 _ _ _
                  obtain ⟨h1, h2, h3, hdx, hdy, hsx, hsy⟩ :=
                    afterPointer_again _ _ _ _ _ _ _ _ h
                  left
                  exact ⟨h1, h2, Or.inr ⟨h3, by omega⟩, hdx, hdy, hsx, hsy⟩
      · -- pointer found: full pass, lost reset to 0
        obtain ⟨h1, h2, h3, hdx, hdy, hsx, hsy⟩ :=
          afterPointer_again _ _ _ _ _ _ _ _ h
        left
        exact ⟨h1, h2, Or.inl h3, hdx, hdy, hsx, hsy⟩

theorem loopMeasure_dec (cfg : MouseCfg) (o : MObs) (s s2 : LoopSt)
    (hA : s.attempts ≤ cfg.maxAttempts) (hL : s.lost < cfg.maxLost)
    (h : (stepBody cfg o s).1 = .again s2) :
    loopMeasure cfg s2 < loopMeasure cfg s ∧
    s2.attempts ≤ cfg.maxAttempts ∧ s2.lost < cfg.maxLost := by
  rcases stepBody_again cfg o s s2 h with
    ⟨ha, hA2, hl, -, -, -, -⟩ | ⟨-, -, -, -, ha, hl, hb⟩
  · refine ⟨?_, hA2, ?_⟩
    · unfold loopMeasure
      rw [ha]
      have h1 : cfg.maxAttempts + 1 - s.attempts =
          (cfg.maxAttempts - s.attempts) + 1 := by omega
      have h2 : cfg.maxAttempts + 1 - (s.attempts + 1) =
          cfg.maxAttempts - s.attempts := by omega
      rw [h1, h2, Nat.succ_mul]
      generalize (cfg.maxAttempts - s.attempts) * (cfg.maxLost + 1) = P
      omega
    · rcases hl with h0 | ⟨hsucc, hb⟩
      · omega
      · omega
  · refine ⟨?_, by omega, by omega⟩
    unfold loopMeasure
    rw [ha, hl]
    generalize (cfg.maxAttempts + 1 - s.attempts) * (cfg.maxLost + 1) = P
    omega

/-- With fuel exceeding the measure, the movement loop always reaches a
terminal outcome, for every environment behaviour. -/
theorem runLoop_isSome (cfg : MouseCfg) (env : ℕ → MObs) :
    ∀ (n i : ℕ) (s : LoopSt), loopMeasure cfg s < n →
      s.attempts ≤ cfg.maxAttempts → s.lost < cfg.maxLost →
      ((runLoop cfg env n i s).1).isSome = true := by
  intro n
  induction n with
  | zero => intro i s hm _ _; exact absurd hm (Nat.not_lt_zero _)
  | succ n ih =>
      intro i s hm hA hL
      simp only [runLoop]
      split
      · cases hsb : (stepBody cfg (env i) s).1 with
        | done r => rfl
        | crash => rfl
        | again s2 =>
            dsimp only
            have hd := loopMeasure_dec cfg (env i) s s2 hA hL hsb
            exact ih (i + 1) s2 (by omega) hd.2.1 hd.2.2
      · rfl

/-- A pass whose frame has no pointer and a positive credential-prompt
classification returns the blocked result at once: the only actuator action of
the pass is the single relative move issued before the frame was captured —
no recovery probe and no further move. -/
theorem stepBody_password (cfg : MouseCfg) (o : MObs) (s : LoopSt)
    (hmv : o.moveOk = true) (hshot : o.shotOk = true)
    (hptr : o.pointer = none) (hpw : o.password = true) :
    stepBody cfg o s =
      (.done { success := false, attempts := some s.attempts,
               passwordDetected := true, err := some .passwordDetected },
       [MAct.movePixel (s.stepX * (s.dirX : ℚ)) (s.stepY * (s.dirY : ℚ))]) := by
  unfold stepBody
  simp [hmv, hshot, hptr, hpw]

/-! ### Claim C3 -/

/-- C3: the feedback loop of `move_to_target` terminates for every behaviour
of the screenshot/pointer/actuator environment.  First conjunct: every
continuing pass either increments the attempt counter or increments the
lost-pointer counter (all other passes return or crash out of the loop).
Second conjunct: with fuel `loopMeasure + 1` the loop always reaches a
terminal outcome.  Third conjunct: `move_to_target` as a whole always returns.
The counters abort at their ceilings (`max_attempts`, default 10;
`max_lost_pointer_count`, default 5), so the iteration count is bounded. -/
theorem claim3_moveToTarget_terminates :
    (∀ (cfg : MouseCfg) (o : MObs) (s s2 : LoopSt),
        (stepBody cfg o s).1 = .again s2 →
        s2.attempts = s.attempts + 1 ∨
          (s2.attempts = s.attempts ∧ s2.lost = s.lost + 1)) ∧
    (∀ (cfg : MouseCfg) (env : ℕ → MObs) (i : ℕ) (s : LoopSt),
        s.attempts ≤ cfg.maxAttempts → s.lost < cfg.maxLost →
        ((runLoop cfg env (loopMeasure cfg s + 1) i s).1).isSome = true) ∧
    (∀ (cfg : MouseCfg) (env : ℕ → MObs) (noMove0 : ℕ),
        0 < cfg.maxLost →
        ((moveToTarget cfg env noMove0).1).isSome = true) := by
  refine ⟨?_, ?_, ?_⟩
  · intro cfg o s s2 h
    rcases stepBody_again cfg o s s2 h with
      ⟨ha, -, -, -, -, -, -⟩ | ⟨-, -, -, -, ha, hl, -⟩
    · exact Or.inl ha
    · exact Or.inr ⟨ha, hl⟩
  · intro cfg env i s hA hL
    exact runLoop_isSome cfg env _ i s (Nat.lt_succ_self _) hA hL
  · intro cfg env noMove0 hml
    unfold moveToTarget
    dsimp only
    split
    · rfl
    · split
      · exact runLoop_isSome cfg env _ 1 _ (Nat.lt_succ_self _)
          (Nat.zero_le _) hml
      · split
        · rfl
        · split
          · rfl
          · split
            · rfl
            · split
              · exact runLoop_isSome cfg env _ 1 _ (Nat.lt_succ_self _)
                  (Nat.zero_le _) hml
              · split <;> rfl

/-- A concrete `move_to_target` call: target `(16, 0)`, default configuration
(tolerance 10, ratios `(0.6, 0.91)`). -/
def cexCfg : MouseCfg := { targetX := 16, targetY := 0 }

/-- Witness for C3 at concrete inputs (the default-constant configuration, an
environment that never finds the pointer, and the loop state of a pointer
starting at the origin). -/
theorem claim3_moveToTarget_witness :
    ((runLoop cexCfg (fun _ => {}) (loopMeasure cexCfg (initLoopSt cexCfg 0 0 0) + 1)
        1 (initLoopSt cexCfg 0 0 0)).1).isSome = true ∧
    ((moveToTarget cexCfg (fun _ => {}) 0).1).isSome = true := by
  constructor
  · exact claim3_moveToTarget_terminates.2.1 cexCfg (fun _ => {}) 1
      (initLoopSt cexCfg 0 0 0) (Nat.zero_le _) (by decide)
  · exact claim3_moveToTarget_terminates.2.2 cexCfg (fun _ => {}) 0 (by decide)

/-! ### Claim C5 -/

/-- C5 (amended): when the recomputed delta on an axis has changed sign
relative to the direction of the step just taken (an overshoot), the next
commanded step magnitude on that axis is `max(tolerance, previous/2)` — i.e.
half the previous magnitude, but floored at the tolerance; it is ≤ half only
when half the previous step still exceeds the tolerance.  The hypothesis
`0 ≤ delta * dir` is the loop invariant relating the stored delta to the
stored direction (it holds of the initial state and of every full pass). -/
theorem claim5_overshootContraction (cfg : MouseCfg) (o : MObs)
    (s s2 : LoopSt) (hinvX : 0 ≤ s.deltaX * s.dirX)
    (hinvY : 0 ≤ s.deltaY * s.dirY)
    (h : (stepBody cfg o s).1 = .again s2) :
    (s2.deltaX * s.dirX < 0 →
      s2.stepX = max (cfg.tolerance : ℚ) (s.stepX / 2)) ∧
    (s2.deltaY * s.dirY < 0 →
      s2.stepY = max (cfg.tolerance : ℚ) (s.stepY / 2)) := by
  rcases stepBody_again cfg o s s2 h with
    ⟨-, -, -, -, -, hsx, hsy⟩ | ⟨hdx, hdy, -, -, -, -, -⟩
  · constructor
    · intro hflip
      rw [hsx, adjustAxis_flip _ _ _ _ _ _ hflip]
    · intro hflip
      rw [hsy, adjustAxis_flip _ _ _ _ _ _ hflip]
  · constructor
    · intro hflip
      rw [hdx] at hflip
      omega
    · intro hflip
      rw [hdy] at hflip
      omega

/-- Loop state after the first pass of the C5 run (overshoot to x = 40). -/
def cexS1 : LoopSt :=
  { xNow := 40, yNow := 0, deltaX := -24, deltaY := 0, stepX := 40/3,
    stepY := 0, dirX := -1, dirY := -1, totalX := 80/3, totalY := 0,
    attempts := 1, lost := 0, noMove := 0 }

/-- Loop state after the second pass (second overshoot, back to x = 2): the
halved step `20/3` falls below the tolerance 10 and is floored at 10. -/
def cexS2 : LoopSt :=
  { xNow := 2, yNow := 0, deltaX := 14, deltaY := 0, stepX := 10,
    stepY := 0, dirX := 1, dirY := -1, totalX := 40/3, totalY := 0,
    attempts := 2, lost := 0, noMove := 0 }

/-- C5 counterexample: a concrete two-pass run of the movement loop (pointer
at 0, target 16, observed positions 40 then 2).  The second pass is a sign
flip on the x axis, yet the step magnitude commanded on the next pass is 10 —
more than half of the previous pass's magnitude `40/3` — because the halving
is floored at the tolerance. -/
theorem claim5_overshootContraction_cex :
    (stepBody cexCfg { pointer := some (40, 0) }
      (initLoopSt cexCfg 0 0 0)).1 = .again cexS1 ∧
    (stepBody cexCfg { pointer := some (2, 0) } cexS1).1 = .again cexS2 ∧
    cexS2.deltaX * cexS1.dirX < 0 ∧
    ¬ (cexS2.stepX ≤ cexS1.stepX / 2) := by
  refine ⟨?_, ?_, by decide, ?_⟩
  · norm_num [stepBody, afterPointer, finishPass, adjustAxis, stepFromDelta,
      signOf, initLoopSt, cexCfg, cexS1, max_def, min_def]
  · norm_num [stepBody, afterPointer, finishPass, adjustAxis, stepFromDelta,
      signOf, cexS1, cexCfg, cexS2, max_def, min_def]
  · norm_num [cexS1, cexS2]

/-- Witness for C5: the amended theorem applied at the concrete second pass of
the counterexample run. -/
theorem claim5_overshootContraction_witness :
    cexS2.stepX = max ((cexCfg.tolerance : ℤ) : ℚ) (cexS1.stepX / 2) := by
  have h2 : (stepBody cexCfg { pointer := some (2, 0) } cexS1).1 =
      .again cexS2 := by
    norm_num [stepBody, afterPointer, finishPass, adjustAxis, stepFromDelta,
      signOf, cexS1, cexCfg, cexS2, max_def, min_def]
  exact (claim5_overshootContraction cexCfg { pointer := some (2, 0) }
    cexS1 cexS2 (by decide) (by decide) h2).1 (by decide)

/-! ### Claim C6 -/

/-- C6: if during a loop pass of `move_to_target` the pointer is not found and
the credential-prompt classifier reports true for that frame, the loop returns
at once with an unsuccessful result carrying `password_detected = True`; the
pass's action trace is exactly the one relative move issued before the frame
was observed — no recovery probe, no further move commands, no retry. -/
theorem claim6_passwordAbort (cfg : MouseCfg) (env : ℕ → MObs) (fuel i : ℕ)
    (s : LoopSt) (hcond : loopCond cfg s = true)
    (hmv : (env i).moveOk = true) (hshot : (env i).shotOk = true)
    (hptr : (env i).pointer = none) (hpw : (env i).password = true) :
    runLoop cfg env (fuel + 1) i s =
      (some (.result { success := false, attempts := some s.attempts,
                       passwordDetected := true,
                       err := some .passwordDetected }),
       [MAct.movePixel (s.stepX * (s.dirX : ℚ)) (s.stepY * (s.dirY : ℚ))]) := by
  simp only [runLoop]
  rw [if_pos hcond, stepBody_password cfg (env i) s hmv hshot hptr hpw]

/-- Witness for C6 at concrete inputs: the environment always answers "no
pointer, credential prompt present". -/
theorem claim6_passwordAbort_witness :
    runLoop cexCfg (fun _ => { pointer := none, password := true }) 4 1
        (initLoopSt cexCfg 0 0 0) =
      (some (.result { success := false,
                       attempts := some (initLoopSt cexCfg 0 0 0).attempts,
                       passwordDetected := true,
                       err := some .passwordDetected }),
       [MAct.movePixel
          ((initLoopSt cexCfg 0 0 0).stepX * ((initLoopSt cexCfg 0 0 0).dirX : ℚ))
          ((initLoopSt cexCfg 0 0 0).stepY * ((initLoopSt cexCfg 0 0 0).dirY : ℚ))]) :=
  claim6_passwordAbort cexCfg (fun _ => { pointer := none, password := true })
    3 1 (initLoopSt cexCfg 0 0 0) (by decide) rfl rfl rfl rfl

/-! ### Lemmas on the state graph and the exploration engine -/

theorem addDeadButton_nodes (g : GraphE) (sid : StateId) (bid : String) :
    (addDeadButton g sid bid).nodes = g.nodes := by
  unfold addDeadButton
  split <;> rfl

theorem addDeadButton_edges (g : GraphE) (sid : StateId) (bid : String) :
    (addDeadButton g sid bid).edges = g.edges := by
  unfold addDeadButton
  split <;> rfl

theorem addDeadButton_dead_mono (g : GraphE) (sid : StateId) (bid : String) :
    g.deadButtons ⊆ (addDeadButton g sid bid).deadButtons := by
  unfold addDeadButton
  split
  · exact fun a ha => ha
  · exact fun a ha => List.mem_cons_of_mem _ ha

theorem addDeadButton_mem (g : GraphE) (sid : StateId) (bid : String) :
    (sid, bid) ∈ (addDeadButton g sid bid).deadButtons := by
  unfold addDeadButton
  split
  · assumption
  · exact List.mem_cons_self _ _

theorem addEdge_dead (g : GraphE) (f t : StateId) (b : ButtonE) :
    (addEdge g f t b).deadButtons = g.deadButtons := by
  unfold addEdge
  split <;> rfl

theorem addEdge_nodes (g : GraphE) (f t : StateId) (b : ButtonE) :
    (addEdge g f t b).nodes = g.nodes := by
  unfold addEdge
  split <;> rfl

theorem addState_dead (g : GraphE) (s : StateE) :
    (addState g s).2.deadButtons = g.deadButtons := by
  unfold addState
  split <;> rfl

/-- Every mutating operation of `StateGraph` preserves the dead-button set
(only `add_dead_button` touches it, and it only inserts). -/
theorem applyGraphOp_dead_mono (op : GraphOp) (g : GraphE) :
    g.deadButtons ⊆ (applyGraphOp op g).deadButtons := by
  cases op with
  | addStateOp s =>
      show g.deadButtons ⊆ (addState g s).2.deadButtons
      rw [addState_dead]
      exact fun a ha => ha
  | addEdgeOp f t b =>
      show g.deadButtons ⊆ (addEdge g f t b).deadButtons
      rw [addEdge_dead]
      exact fun a ha => ha
  | addDeadOp sid bid => exact addDeadButton_dead_mono g sid bid
  | setHomeOp s => exact fun a ha => ha

theorem list_subset_self {α : Type} (l : List α) : l ⊆ l := fun _ ha => ha

theorem recordEdgeKnown_dead (g : GraphE) (cs : Option ℕ)
    (clickedId : Option String) (j : ℕ) :
    (recordEdgeKnown g cs clickedId j).deadButtons = g.deadButtons := by
  unfold recordEdgeKnown
  split
  · split
    · split
      · rw [addEdge_dead]
      · rfl
    · rfl
  · rfl

theorem recordEdgeNew_dead (g : GraphE) (cs : Option ℕ)
    (clickedId : Option String) (toId : StateId) :
    (recordEdgeNew g cs clickedId toId).deadButtons = g.deadButtons := by
  unfold recordEdgeNew
  split
  · split
    · rw [addEdge_dead]
    · rfl
  · rfl

/-- `check_current_state` never touches the dead-button set. -/
theorem checkCurrentState_dead (cfg : ExplorerCfg) (env : ℕ → EObs)
    (clickedId : Option String) (st : ExpSt) :
    (checkCurrentState cfg env clickedId st).2.graph.deadButtons =
      st.graph.deadButtons := by
  unfold checkCurrentState
  dsimp only
  split
  · rfl
  · split
    · rfl
    · split
      · exact recordEdgeKnown_dead _ _ _ _
      · rw [recordEdgeNew_dead, addState_dead]

theorem popButton_dead (st : ExpSt) (si : ℕ) :
    (popButton st si).2.graph.deadButtons = st.graph.deadButtons := by
  unfold popButton
  dsimp only
  split <;> rfl

/-- `_restart_app_and_resume` never removes a node, never removes an edge,
only grows the dead set, issues no click, and issues at most one restart
request — exactly one precisely when a state with a non-dead unexplored
button remains and an app manager is attached, zero otherwise. -/
theorem restartAndResume_spec (cfg : ExplorerCfg) (st : ExpSt) :
    (restartAndResume cfg st).1.graph.nodes = st.graph.nodes ∧
    (restartAndResume cfg st).1.graph.edges = st.graph.edges ∧
    st.graph.deadButtons ⊆ (restartAndResume cfg st).1.graph.deadButtons ∧
    (∀ sid bid, EAct.click sid bid ∉ (restartAndResume cfg st).2) ∧
    (restartAndResume cfg st).2.count EAct.restartApp =
      (if (getUnexploredStates (restartAndResume cfg st).1.graph).isEmpty =
          false ∧ cfg.hasAppManager = true then 1 else 0) := by
  unfold restartAndResume
  dsimp only
  cases htr : st.lastTrigger with
  | none =>
      simp only [htr]
      split
      · rename_i hempty
        refine ⟨?_, ?_, ?_, ?_, ?_⟩
        · first | trivial | rfl
        · first | trivial | rfl
        · exact list_subset_self _
        · intro sid bid hmem
          simp at hmem
        · simp [hempty, List.count_cons]
      · rename_i hne
        refine ⟨?_, ?_, ?_, ?_, ?_⟩
        · first | trivial | rfl
        · first | trivial | rfl
        · exact list_subset_self _
        · intro sid bid hmem
          simp only [List.nil_append] at hmem
          split at hmem <;> simp at hmem
        · simp only [List.nil_append]
          split <;> simp_all [List.count_cons]
  | some tr =>
      simp only [htr]
      split
      · rename_i hempty
        refine ⟨?_, ?_, ?_, ?_, ?_⟩
        · first | trivial | exact addDeadButton_nodes _ _ _
        · first | trivial | exact addDeadButton_edges _ _ _
        · exact addDeadButton_dead_mono _ _ _
        · intro sid bid hmem
          simp at hmem
        · simp [hempty, List.count_cons, List.count_append]
      · rename_i hne
        refine ⟨?_, ?_, ?_, ?_, ?_⟩
        · first | trivial | exact addDeadButton_nodes _ _ _
        · first | trivial | exact addDeadButton_edges _ _ _
        · exact addDeadButton_dead_mono _ _ _
        · intro sid bid hmem
          simp only [List.cons_append, List.mem_cons] at hmem
          rcases hmem with h | h
          · exact EAct.noConfusion h
          · simp only [List.nil_append] at h
            split at h <;> simp at h
        · split <;> simp_all [List.count_cons, List.count_append]

theorem subsetOfEqL {α : Type} {l1 l2 : List α} (h : l1 = l2) : l1 ⊆ l2 :=
  h ▸ list_subset_self l1

/-- `_handle_home_return` only grows the dead set and issues no click. -/
theorem handleHomeReturn_spec (cfg : ExplorerCfg) (st : ExpSt) (ns : StateE) :
    st.graph.deadButtons ⊆
      (handleHomeReturn cfg st ns).2.1.graph.deadButtons ∧
    (∀ sid bid, EAct.click sid bid ∉ (handleHomeReturn cfg st ns).2.2) := by
  unfold handleHomeReturn
  split
  · exact ⟨list_subset_self _, fun sid bid h => absurd h (List.not_mem_nil _)⟩
  · cases htr : st.lastTrigger with
    | some tr =>
        simp only [htr]
        constructor
        · intro a ha
          exact (restartAndResume_spec cfg _).2.2.1
            (addDeadButton_dead_mono _ _ _ ha)
        · intro sid bid hmem
          rcases List.mem_cons.mp hmem with h | h
          · exact EAct.noConfusion h
          · exact (restartAndResume_spec cfg _).2.2.2.1 sid bid h
    | none =>
        simp only [htr]
        exact ⟨(restartAndResume_spec cfg _).2.2.1,
          fun sid bid h => (restartAndResume_spec cfg _).2.2.2.1 sid bid h⟩

/-- `_click_button` only grows the dead set, and the only click event it can
emit is on the pair `(fingerprint of the explored state, button id)` — the
pair that the caller has just checked against the blacklist. -/
theorem clickButton_spec (cfg : ExplorerCfg) (st : ExpSt) (si : ℕ)
    (b : ButtonE) (o : EObs) :
    st.graph.deadButtons ⊆ (clickButton cfg st si b o).2.1.graph.deadButtons ∧
    (∀ sid bid, EAct.click sid bid ∈ (clickButton cfg st si b o).2.2 →
      sid = stateIdAt st.graph si ∧ bid = b.id) := by
  unfold clickButton
  split
  · refine ⟨list_subset_self _, ?_⟩
    intro sid bid hmem
    have h := List.mem_singleton.mp hmem
    injection h with h1 h2
    exact ⟨h1, h2⟩
  · split
    · split
      · exact ⟨list_subset_self _,
          fun sid bid h => absurd (absurd h (List.not_mem_nil _)) id⟩
      · constructor
        · intro a ha
          exact (restartAndResume_spec cfg _).2.2.1
            (addDeadButton_dead_mono _ _ _ ha)
        · intro sid bid hmem
          rcases List.mem_cons.mp hmem with h | h
          · exact EAct.noConfusion h
          · exact absurd h ((restartAndResume_spec cfg _).2.2.2.1 sid bid)
    · exact ⟨list_subset_self _,
        fun sid bid h => absurd h (List.not_mem_nil _)⟩

/-- Dead-set invariant of the post-classification tail of an `explore_state`
iteration, assuming the invariant of the recursive re-entries `k`.  `D` is the
ambient dead set at the start of the iteration. -/
theorem exploreAfterClassify_dead (cfg : ExplorerCfg)
    (k : ℕ → ExpSt → ExpSt × List EAct)
    (ih : ∀ (si : ℕ) (st : ExpSt),
      st.graph.deadButtons ⊆ (k si st).1.graph.deadButtons ∧
      (∀ sid bid, (sid, bid) ∈ st.graph.deadButtons →
        EAct.click sid bid ∉ (k si st).2))
    (si : ℕ) (b : ButtonE) (acts2 : List EAct)
    (cc1 : Except Unit (Bool × Option ℕ)) (st3 : ExpSt)
    (D : List (StateId × String))
    (hsub : D ⊆ st3.graph.deadButtons)
    (hacts : ∀ sid bid, (sid, bid) ∈ D → EAct.click sid bid ∉ acts2) :
    D ⊆ (exploreAfterClassify cfg k si b acts2 cc1 st3).1.graph.deadButtons ∧
    (∀ sid bid, (sid, bid) ∈ D →
      EAct.click sid bid ∉
        (exploreAfterClassify cfg k si b acts2 cc1 st3).2) := by
  unfold exploreAfterClassify
  cases cc1 with
  | error e => exact ⟨hsub, fun sid bid hk => hacts sid bid hk⟩
  | ok r =>
      obtain ⟨r1, r2⟩ := r
      dsimp only
      cases r2 with
      | none =>
          dsimp only
          obtain ⟨ihs, ihc⟩ := ih si st3
          refine ⟨hsub.trans ihs, ?_⟩
          intro sid bid hk hmem
          rcases List.mem_append.mp hmem with h | h
          · exact hacts sid bid hk h
          · exact ihc sid bid (hsub hk) h
      | some j =>
          dsimp only
          split
          · -- known state: home handling / wasted-click ceiling
            by_cases hhd : cfg.enableHomeDetection = true
            · simp only [if_pos hhd]
              split
              · have hhr := handleHomeReturn_spec cfg
                  { st3 with
                    clicksSinceNewState := st3.clicksSinceNewState + 1 }
                  (nodeAt st3.graph j)
                refine ⟨hsub.trans hhr.1, ?_⟩
                intro sid bid hk hmem
                rcases List.mem_append.mp hmem with h | h
                · exact hacts sid bid hk h
                · exact absurd h (hhr.2 sid bid)
              · split
                · have hhr := handleHomeReturn_spec cfg
                    { st3 with
                      clicksSinceNewState := st3.clicksSinceNewState + 1 }
                    (nodeAt st3.graph j)
                  have hrr := restartAndResume_spec cfg
                    (handleHomeReturn cfg
                      { st3 with
                        clicksSinceNewState := st3.clicksSinceNewState + 1 }
                      (nodeAt st3.graph j)).2.1
                  refine ⟨hsub.trans (hhr.1.trans hrr.2.2.1), ?_⟩
                  intro sid bid hk hmem
                  rcases List.mem_append.mp hmem with h | h
                  · rcases List.mem_append.mp h with h2 | h2
                    · exact hacts sid bid hk h2
                    · exact absurd h2 (hhr.2 sid bid)
                  · exact absurd h (hrr.2.2.2.1 sid bid)
                · have hhr := handleHomeReturn_spec cfg
                    { st3 with
                      clicksSinceNewState := st3.clicksSinceNewState + 1 }
                    (nodeAt st3.graph j)
                  obtain ⟨ihs, ihc⟩ := ih si
                    (handleHomeReturn cfg
                      { st3 with
                        clicksSinceNewState := st3.clicksSinceNewState + 1 }
                      (nodeAt st3.graph j)).2.1
                  refine ⟨hsub.trans (hhr.1.trans ihs), ?_⟩
                  intro sid bid hk hmem
                  rcases List.mem_append.mp hmem with h | h
                  · rcases List.mem_append.mp h with h2 | h2
                    · exact hacts sid bid hk h2
                    · exact absurd h2 (hhr.2 sid bid)
                  · exact ihc sid bid (hhr.1 (hsub hk)) h
            · simp only [if_neg hhd]
              split
              · rename_i hfalse
                exact absurd hfalse (by simp)
              · split
                · have hrr := restartAndResume_spec cfg
                    { st3 with
                      clicksSinceNewState := st3.clicksSinceNewState + 1 }
                  refine ⟨hsub.trans hrr.2.2.1, ?_⟩
                  intro sid bid hk hmem
                  rcases List.mem_append.mp hmem with h | h
                  · rcases List.mem_append.mp h with h2 | h2
                    · exact hacts sid bid hk h2
                    · exact absurd h2 (List.not_mem_nil _)
                  · exact absurd h (hrr.2.2.2.1 sid bid)
                · obtain ⟨ihs, ihc⟩ := ih si
                    { st3 with
                      clicksSinceNewState := st3.clicksSinceNewState + 1 }
                  refine ⟨hsub.trans ihs, ?_⟩
                  intro sid bid hk hmem
                  rcases List.mem_append.mp hmem with h | h
                  · rcases List.mem_append.mp h with h2 | h2
                    · exact hacts sid bid hk h2
                    · exact absurd h2 (List.not_mem_nil _)
                  · exact ihc sid bid (hsub hk) h
          · -- brand-new state: depth-first recursion, then the frame's loop
            -- continues
            obtain ⟨ihs5, ihc5⟩ := ih j
              { st3 with
                clicksSinceNewState := 0,
                lastTrigger := some (stateIdAt st3.graph si, b.id) }
            obtain ⟨ihs6, ihc6⟩ := ih si
              (k j { st3 with
                clicksSinceNewState := 0,
                lastTrigger := some (stateIdAt st3.graph si, b.id) }).1
            refine ⟨hsub.trans (ihs5.trans ihs6), ?_⟩
            intro sid bid hk hmem
            rcases List.mem_append.mp hmem with h | h
            · rcases List.mem_append.mp h with h2 | h2
              · exact hacts sid bid hk h2
              · exact ihc5 sid bid (hsub hk) h2
            · exact ihc6 sid bid (ihs5 (hsub hk)) h

/-- Dead-set invariant of the post-pop part of an `explore_state` iteration:
the blacklist check guards the click, so no pair of the ambient dead set `D`
is ever clicked. -/
theorem exploreAfterPop_dead (cfg : ExplorerCfg) (env : ℕ → EObs)
    (k : ℕ → ExpSt → ExpSt × List EAct)
    (ih : ∀ (si : ℕ) (st : ExpSt),
      st.graph.deadButtons ⊆ (k si st).1.graph.deadButtons ∧
      (∀ sid bid, (sid, bid) ∈ st.graph.deadButtons →
        EAct.click sid bid ∉ (k si st).2))
    (si : ℕ) (b : ButtonE) (o : EObs) (st1 : ExpSt)
    (D : List (StateId × String)) (hsub : D ⊆ st1.graph.deadButtons) :
    D ⊆ (exploreAfterPop cfg env k si b o st1).1.graph.deadButtons ∧
    (∀ sid bid, (sid, bid) ∈ D →
      EAct.click sid bid ∉ (exploreAfterPop cfg env k si b o st1).2) := by
  unfold exploreAfterPop
  split
  · obtain ⟨ihs, ihc⟩ := ih si st1
    exact ⟨hsub.trans ihs, fun sid bid hk => ihc sid bid (hsub hk)⟩
  · rename_i hnotdead
    dsimp only
    have hcb := clickButton_spec cfg st1 si b o
    have hclick : ∀ sid bid, (sid, bid) ∈ D →
        EAct.click sid bid ∉ (clickButton cfg st1 si b o).2.2 := by
      intro sid bid hk hmem
      obtain ⟨h1, h2⟩ := hcb.2 sid bid hmem
      apply hnotdead
      subst h1
      subst h2
      unfold isDeadButton
      simpa using hsub hk
    have hsub1 : D ⊆ (clickButton cfg st1 si b o).2.1.graph.deadButtons :=
      hsub.trans hcb.1
    split
    · split
      · -- pointer stuck at its ceiling: blacklist and continue
        obtain ⟨ihs, ihc⟩ := ih si
          { (clickButton cfg st1 si b o).2.1 with
            graph := addDeadButton (clickButton cfg st1 si b o).2.1.graph
              (stateIdAt (clickButton cfg st1 si b o).2.1.graph si) b.id }
        refine ⟨hsub1.trans ((addDeadButton_dead_mono _ _ _).trans ihs), ?_⟩
        intro sid bid hk hmem
        rcases List.mem_append.mp hmem with h | h
        · rcases List.mem_append.mp h with h2 | h2
          · exact hclick sid bid hk h2
          · exact EAct.noConfusion (List.mem_singleton.mp h2)
        · exact ihc sid bid (addDeadButton_dead_mono _ _ _ (hsub1 hk)) h
      · -- plain failure: continue
        obtain ⟨ihs, ihc⟩ := ih si (clickButton cfg st1 si b o).2.1
        refine ⟨hsub1.trans ihs, ?_⟩
        intro sid bid hk hmem
        rcases List.mem_append.mp hmem with h | h
        · exact hclick sid bid hk h
        · exact ihc sid bid (hsub1 hk) h
    · -- click succeeded: classify and branch
      have hccd := checkCurrentState_dead cfg env (some b.id)
        (clickButton cfg st1 si b o).2.1
      exact exploreAfterClassify_dead cfg k ih si b _ _ _ D
        (hsub1.trans (subsetOfEqL hccd.symm)) hclick

/-- Dead-set invariant of one `explore_state` loop iteration, assuming it of
the recursive re-entries. -/
theorem exploreStep_dead (cfg : ExplorerCfg) (env : ℕ → EObs)
    (k : ℕ → ExpSt → ExpSt × List EAct)
    (ih : ∀ (si : ℕ) (st : ExpSt),
      st.graph.deadButtons ⊆ (k si st).1.graph.deadButtons ∧
      (∀ sid bid, (sid, bid) ∈ st.graph.deadButtons →
        EAct.click sid bid ∉ (k si st).2)) :
    ∀ (si : ℕ) (st : ExpSt),
      st.graph.deadButtons ⊆
        (exploreStep cfg env k si st).1.graph.deadButtons ∧
      (∀ sid bid, (sid, bid) ∈ st.graph.deadButtons →
        EAct.click sid bid ∉ (exploreStep cfg env k si st).2) := by
  intro si st
  unfold exploreStep
  dsimp only
  split
  · exact ⟨list_subset_self _,
      fun sid bid hk hmem => absurd hmem (List.not_mem_nil _)⟩
  · split
    · exact ⟨list_subset_self _,
        fun sid bid hk hmem => absurd hmem (List.not_mem_nil _)⟩
    · cases hpb : (popButton { st with idx := st.idx + 1 } si).1 with
      | none =>
          exact ⟨subsetOfEqL
              (popButton_dead { st with idx := st.idx + 1 } si).symm,
            fun sid bid hk hmem => absurd hmem (List.not_mem_nil _)⟩
      | some b =>
          exact exploreAfterPop_dead cfg env k ih si b (env st.idx)
            (popButton { st with idx := st.idx + 1 } si).2
            st.graph.deadButtons
            (subsetOfEqL
              (popButton_dead { st with idx := st.idx + 1 } si).symm)


/-- Dead-set invariant of `explore_state`: the dead-button set only grows over
a run (restarts included), and a pair that is blacklisted on entry is never
clicked anywhere in the run. -/
theorem exploreState_dead (cfg : ExplorerCfg) (env : ℕ → EObs) :
    ∀ (fuel si : ℕ) (st : ExpSt),
      st.graph.deadButtons ⊆
        (exploreState cfg env fuel si st).1.graph.deadButtons ∧
      (∀ sid bid, (sid, bid) ∈ st.graph.deadButtons →
        EAct.click sid bid ∉ (exploreState cfg env fuel si st).2) := by
  intro fuel
  induction fuel with
  | zero =>
      intro si st
      exact ⟨list_subset_self _,
        fun sid bid hk hmem => absurd hmem (List.not_mem_nil _)⟩
  | succ n ih =>
      intro si st
      simp only [exploreState]
      exact exploreStep_dead cfg env (exploreState cfg env n) ih si st

/-! ### Claim C4 -/

/-- C4: dead-element permanence.  (1) Every mutating graph operation
preserves the dead-button set (there is no removing operation); (2) hence
`is_dead_button` stays true under any operation once a pair is blacklisted;
(3) over any `explore_state` run — restarts included — the dead set only
grows, and a pair blacklisted on entry is never clicked (the engine consults
`is_dead_button` on every popped button before `_click_button`); (4) the
restart path removes no node from the graph. -/
theorem claim4_deadPermanence :
    (∀ (op : GraphOp) (g : GraphE),
        g.deadButtons ⊆ (applyGraphOp op g).deadButtons) ∧
    (∀ (g : GraphE) (sid : StateId) (bid : String) (op : GraphOp),
        isDeadButton g sid bid = true →
        isDeadButton (applyGraphOp op g) sid bid = true) ∧
    (∀ (cfg : ExplorerCfg) (env : ℕ → EObs) (fuel si : ℕ) (st : ExpSt)
        (sid : StateId) (bid : String),
        (sid, bid) ∈ st.graph.deadButtons →
        (sid, bid) ∈ (exploreState cfg env fuel si st).1.graph.deadButtons ∧
        EAct.click sid bid ∉ (exploreState cfg env fuel si st).2) ∧
    (∀ (cfg : ExplorerCfg) (st : ExpSt),
        (restartAndResume cfg st).1.graph.nodes = st.graph.nodes) := by
  refine ⟨applyGraphOp_dead_mono, ?_, ?_, ?_⟩
  · intro g sid bid op h
    have hm : (sid, bid) ∈ g.deadButtons := by
      simpa [isDeadButton] using h
    have hm2 := applyGraphOp_dead_mono op g hm
    simpa [isDeadButton] using hm2
  · intro cfg env fuel si st sid bid hm
    obtain ⟨hs, hc⟩ := exploreState_dead cfg env fuel si st
    exact ⟨hs hm, hc sid bid hm⟩
  · intro cfg st
    exact (restartAndResume_spec cfg st).1

/-- A blacklisted pair used by the C4 witness. -/
def deadPair : StateId × String := (genStateId [okButton], "0")

/-- A graph with one state and one blacklisted pair. -/
def gDead : GraphE :=
  { nodes := [okState], edges := [], deadButtons := [deadPair],
    homeState := none }

/-- Explorer state over `gDead`. -/
def stDead : ExpSt :=
  { graph := gDead, currentState := none, clicksSinceNewState := 0,
    lastTrigger := none, idx := 0 }

/-- An environment with every observation at its defaults. -/
def envNull : ℕ → EObs := fun _ => {}

/-- Witness for C4 at concrete inputs. -/
theorem claim4_deadPermanence_witness :
    ((deadPair.1, deadPair.2) ∈
        (exploreState {} envNull 3 0 stDead).1.graph.deadButtons ∧
      EAct.click deadPair.1 deadPair.2 ∉
        (exploreState {} envNull 3 0 stDead).2) ∧
    isDeadButton (applyGraphOp (GraphOp.addStateOp okState) gDead)
      deadPair.1 deadPair.2 = true := by
  constructor
  · exact claim4_deadPermanence.2.2.1 {} envNull 3 0 stDead deadPair.1
      deadPair.2 (List.mem_cons_self _ _)
  · refine claim4_deadPermanence.2.1 gDead deadPair.1 deadPair.2 _ ?_
    unfold isDeadButton
    exact decide_eq_true (List.mem_cons_self _ _)

/-! ### Claim C7 -/

/-- C7 (amended): the restart path (`_restart_app_and_resume`) changes
neither the node list nor the edge list of the State Graph, and it issues at
most one restart request: exactly one when a state with a non-dead unexplored
button remains and an app manager is attached, and zero otherwise (in
particular zero when the wasted-click ceiling fires after the graph has been
exhausted — see the counterexample, which refutes the claim's "exactly
one"). -/
theorem claim7_wastedClickRestart (cfg : ExplorerCfg) (st : ExpSt) :
    (restartAndResume cfg st).1.graph.nodes = st.graph.nodes ∧
    (restartAndResume cfg st).1.graph.edges = st.graph.edges ∧
    (restartAndResume cfg st).2.count EAct.restartApp ≤ 1 ∧
    (restartAndResume cfg st).2.count EAct.restartApp =
      (if (getUnexploredStates (restartAndResume cfg st).1.graph).isEmpty =
          false ∧ cfg.hasAppManager = true then 1 else 0) := by
  obtain ⟨h1, h2, -, -, h5⟩ := restartAndResume_spec cfg st
  refine ⟨h1, h2, ?_, h5⟩
  rw [h5]
  split <;> omega

/-- Comparing two single-button states reduces to the text similarity of the
two button contents against the 0.7 tolerance. -/
theorem checkSameStates_single (b1 b2 : ButtonE) (u1 u2 : List ButtonE)
    (s1 s2 : StateId) :
    checkSameStates ⟨[b1], u1, s1⟩ ⟨[b2], u2, s2⟩
      = decide (7/10 ≤ textSimilarity b1.content b2.content) := by
  unfold checkSameStates
  norm_num [decide_eq_decide, le_max_iff]

/-- Fingerprint of the single-blank-button state. -/
def sidA : StateId := [("", ⟨0, 0, 1, 1⟩)]

/-- Fingerprint of the single-`zzzz`-button state. -/
def sidZ : StateId := [("zzzz", ⟨0, 0, 1, 1⟩)]

/-- C7 counterexample: the state under exploration, its single blank button
still unexplored. -/
def aState : StateE := ⟨[blankButton], [blankButton], sidA⟩

/-- A button reading `zzzz` (the known target state of the C7 run). -/
def zButton : ButtonE :=
  { id := "0", content := "zzzz", bbox := ⟨0, 0, 1, 1⟩, interactivity := true,
    src := "box" }

/-- The `zzzz` state with its unexplored queue already drained. -/
def zState : StateE := ⟨[zButton], [], sidZ⟩

/-- C7 counterexample graph: the state under exploration (one button left)
and a fully drained known state. -/
def g7 : GraphE :=
  { nodes := [aState, zState], edges := [], deadButtons := [],
    homeState := none }

/-- C7 counterexample explorer state: one more wasted click reaches the
ceiling of 15. -/
def st7 : ExpSt :=
  { graph := g7, currentState := some 0, clicksSinceNewState := 14,
    lastTrigger := none, idx := 0 }

/-- C7 counterexample environment: clicking always works and the detector
always reports the single `zzzz` element. -/
def env7 : ℕ → EObs := fun _ =>
  { ui := some [⟨"zzzz", ⟨0, 0, 1, 1⟩, true, "box"⟩] }

/-- Graph after the traced click: the blank button was consumed and one edge
to the `zzzz` state was recorded. -/
def g7F : GraphE :=
  { nodes := [⟨[blankButton], [], sidA⟩, zState],
    edges := [((sidA, sidZ), ⟨sidA, sidZ, blankButton, 1⟩)],
    deadButtons := [], homeState := none }

/-- Final explorer state of the traced C7 run. -/
def st7F : ExpSt :=
  { graph := g7F, currentState := some 1, clicksSinceNewState := 15,
    lastTrigger := none, idx := 2 }

set_option maxHeartbeats 1600000 in
/-- C7 counterexample: a concrete `explore_state` run in which the
wasted-click counter reaches the ceiling of 15 and the restart path is
entered (it emits its final-statistics log), yet zero restart requests are
issued, because no state with a non-dead unexplored button remains — refuting
the claim that reaching the ceiling issues exactly one restart request. -/
theorem claim7_wastedClickRestart_cex :
    (exploreState {} env7 2 0 st7).1.clicksSinceNewState = 15 ∧
    (exploreState {} env7 2 0 st7).2.count EAct.restartApp = 0 ∧
    (exploreState {} env7 2 0 st7).2.count
      (EAct.statsEmit (getStats (exploreState {} env7 2 0 st7).1.graph))
      = 1 := by
  have htoS : toString (0 : ℕ) = "0" := rfl
  have hts0 : textSimilarity "zzzz" "" = 0 := by simp [textSimilarity]
  have hts1 : textSimilarity "zzzz" "zzzz" = 1 :=
    textSimilarity_self _ (by decide)
  have hE : exploreState {} env7 2 0 st7 =
      (st7F, [EAct.click sidA "0", EAct.statsEmit (getStats g7F)]) := by
    norm_num [exploreState, exploreStep, exploreAfterPop, exploreAfterClassify,
      popButton, getNextUnexploredButton, nodeAt, stateIdAt, isDeadButton,
      clickButton, checkCurrentState, buttonsFromUi, mkState, sortByDist,
      List.insertionSort, List.orderedInsert, genStateId, findSimilarIdx,
      findSimilarIdxAux, checkSameStates_single, hts0, hts1, htoS,
      recordEdgeKnown, findButtonById, addEdge, List.lookup, handleHomeReturn,
      isHomeState, restartAndResume, getUnexploredStates, st7, g7, env7,
      aState, zState, zButton, blankButton, sidA, sidZ, g7F, st7F]
  refine ⟨?_, ?_, ?_⟩ <;> rw [hE] <;>
    simp [st7F, List.count_cons, List.count_nil]

/-- C8 (amended): on every terminal path of `explore_all_states` — a
classification timeout, a detector failure, a home-screen refusal, or the
recursive exploration returning — the finalization tail runs unconditionally:
the emitted trace always ends with the final statistics log, the snapshot
export and the metrics finalization.  (The statistics themselves do not record
whether the graph was exhausted.) -/
theorem claim8_finalizeUnconditional (cfg : ExplorerCfg) (env : ℕ → EObs)
    (fuel : ℕ) (st : ExpSt) :
    ∃ pre : List EAct,
      (exploreAllStates cfg env fuel st).2 =
        pre ++ finalizeActs (exploreAllStates cfg env fuel st).1.graph ∧
      finalizeActs (exploreAllStates cfg env fuel st).1.graph =
        [EAct.statsEmit (getStats (exploreAllStates cfg env fuel st).1.graph),
         EAct.exportSnapshot, EAct.finalizeMetrics] := by
  unfold exploreAllStates finalizeActs
  exact ⟨_, rfl, rfl⟩

/-- A graph whose only unexplored button has been blacklisted: the run is
complete (nothing left to explore). -/
def g8a : GraphE :=
  { nodes := [aState], edges := [], deadButtons := [(sidA, "0")],
    homeState := none }

/-- The same graph except that the blacklist entry names a different button
id: exploration is not finished. -/
def g8b : GraphE :=
  { nodes := [aState], edges := [], deadButtons := [(sidA, "1")],
    homeState := none }

/-- C8 counterexample: an exhausted graph and a non-exhausted graph with
identical statistics dictionaries — the emitted stats cannot distinguish a
completed run from a budget-exhausted one (`get_stats` reports only counts,
not which buttons are dead). -/
theorem claim8_statsIndistinct_cex :
    getStats g8a = getStats g8b ∧
    (getUnexploredStates g8a).isEmpty = true ∧
    (getUnexploredStates g8b).isEmpty = false :=
  ⟨rfl, by decide, by decide⟩

/-- C10: whenever the restart-and-resume path runs with a remembered
last-trigger pair, it first blacklists that pair (the blacklist entry is in
the resulting dead set and its action precedes all others); and on the
home-return path the same pair is blacklisted twice (two `addDead` events are
emitted for it). -/
theorem claim10_lastTriggerBlacklisted (cfg : ExplorerCfg) (st : ExpSt)
    (sid : StateId) (bid : String)
    (htr : st.lastTrigger = some (sid, bid)) :
    ((sid, bid) ∈ (restartAndResume cfg st).1.graph.deadButtons ∧
      (restartAndResume cfg st).2.head? = some (EAct.addDead sid bid)) ∧
    ∀ ns, isHomeState st.graph ns = true →
      (handleHomeReturn cfg st ns).1 = true ∧
      (handleHomeReturn cfg st ns).2.2.count (EAct.addDead sid bid) = 2 := by
  constructor
  · unfold restartAndResume
    simp only [htr]
    split
    · exact ⟨addDeadButton_mem _ _ _, rfl⟩
    · exact ⟨addDeadButton_mem _ _ _, rfl⟩
  · intro ns hhome
    unfold handleHomeReturn
    rw [if_neg (by simp [hhome])]
    simp only [htr]
    refine ⟨trivial, ?_⟩
    have h2 : (restartAndResume cfg
        { graph := addDeadButton st.graph sid bid,
          currentState := st.currentState,
          clicksSinceNewState := st.clicksSinceNewState,
          lastTrigger := some (sid, bid), idx := st.idx }).2.count
          (EAct.addDead sid bid) = 1 := by
      unfold restartAndResume
      dsimp only
      split
      · simp [List.count_cons, List.count_append]
      · cases hham : cfg.hasAppManager <;>
          simp [hham, List.count_cons, List.count_append]
    simp [List.count_cons, h2]

/-- C10 witness graph: its single node is also the home state. -/
def gW : GraphE :=
  { nodes := [okState], edges := [], deadButtons := [],
    homeState := some okState }

/-- C10 witness explorer state: a remembered last trigger. -/
def stW : ExpSt :=
  { graph := gW, currentState := some 0, clicksSinceNewState := 3,
    lastTrigger := some (sidA, "0"), idx := 0 }

/-- C10 witness: the blacklisting behaviour at a concrete explorer state. -/
theorem claim10_lastTriggerBlacklisted_witness :
    ((sidA, "0") ∈ (restartAndResume {} stW).1.graph.deadButtons ∧
      (restartAndResume {} stW).2.head? = some (EAct.addDead sidA "0")) ∧
    ((handleHomeReturn {} stW okState).1 = true ∧
      (handleHomeReturn {} stW okState).2.2.count
        (EAct.addDead sidA "0") = 2) := by
  have h := claim10_lastTriggerBlacklisted {} stW sidA "0" rfl
  have hh : isHomeState stW.graph okState = true := by
    simp only [stW, gW, isHomeState]
    exact checkSameStates_refl okState okState rfl
      (by intro b hbm; simp only [okState, mkState] at hbm;
          rw [List.mem_singleton] at hbm; subst hbm; decide)
  exact ⟨h.1, h.2 okState hh⟩

end VRMonkey
